import Mathlib

/-!
A shallow embedding of the CGI-generator pipeline (routes/processProject,
services/gemini, services/kling-video, services/piapi) and proofs of the
behavioural claims about it.

Conventions of the embedding:
* JavaScript truthiness on optional strings/numbers is modelled explicitly
  (`jsOrStr`, `jsOrNat`, `jsTruthy`): `""` and `0` are falsy.
* Exceptions are modelled with `Except String`; the string is the
  `error.message` the code would observe.
* `storage.updateProject` calls are modelled as a trace of `Update` records
  (partial field sets); the orchestrator's writes never fail, matching the
  code paths the claims are about.  The one write the source itself guards
  with try/catch (the recovery checkpoint inside the Kling adapter) has an
  explicit failure flag in its environment.
* Polling loops run on fuel equal to the source's `maxAttempts` constant, so
  termination is structural and the number of status checks is tracked.
-/

namespace CgiGen

/-- JavaScript `a || b` on an optional string field: `undefined` and `""` are
falsy and fall through to the default. -/
def jsOrStr (v : Option String) (d : String) : String :=
  match v with
  | some s => if s = "" then d else s
  | none => d

/-- JavaScript `a || b` on an optional numeric field: `undefined` and `0` are
falsy and fall through to the default. -/
def jsOrNat (v : Option Nat) (d : Nat) : Nat :=
  match v with
  | some n => if n = 0 then d else n
  | none => d

/-- JavaScript truthiness filter on an optional string: a present but empty
string behaves like an absent one. -/
def jsTruthy (v : Option String) : Option String :=
  match v with
  | some s => if s = "" then none else some s
  | none => v

/-- Models `hay.includes(needle)` on strings. -/
def strContains (hay needle : String) : Bool :=
  decide (needle.data <:+: hay.data)

/-- Models `s.startsWith(p)` (character-list implementation). -/
def strStartsWith (s p : String) : Bool :=
  p.data.isPrefixOf s.data

/-- Drop the first `n` characters of a string. -/
def strDropChars (s : String) (n : Nat) : String :=
  String.mk (s.data.drop n)

/-- Scan for the first position where `marker` occurs in `hay`; return what
follows it (the regex group `(.+)` content candidate). -/
def afterMarker (marker : List Char) : List Char → Option (List Char)
  | [] => if marker = [] then some [] else none
  | c :: t =>
      if marker.isPrefixOf (c :: t) then some ((c :: t).drop marker.length)
      else afterMarker marker t

/-- Drop characters of a URL's authority part up to the first `/`. -/
def dropAuthority : List Char → List Char
  | [] => []
  | c :: t => if c = '/' then c :: t else dropAuthority t

/-- Models `new URL(url).pathname`, given for the http/https references this
system produces; any other string makes the constructor throw (`none`). -/
def parseUrlPathname (url : String) : Option String :=
  if strStartsWith url ("http://") then
    match dropAuthority (strDropChars url 7).data with
    | [] => some ("/")
    | l => some (String.mk l)
  else if strStartsWith url ("https://") then
    match dropAuthority (strDropChars url 8).data with
    | [] => some ("/")
    | l => some (String.mk l)
  else none

/-- Helper `extractRelativePath` from `processProject`: take the part of the URL's
pathname after `/public-objects/`, falling back to the original string when
the URL does not parse or the pattern does not match. -/
def extractRelativePath (url : String) : String :=
  match parseUrlPathname url with
  | none => url
  | some pathname =>
      match afterMarker ("/public-objects/").data pathname.data with
      | some rest => if rest = [] then url else String.mk rest
      | none => url

/-! ## Data model (shared/schema.ts, fields read or written by the pipeline) -/

/-- Field `projects.contentType`; the insert schema restricts it to these two. -/
inductive ContentType where
  | image
  | video
deriving DecidableEq, Repr

/-- The status strings the pipeline writes. -/
inductive ProjStatus where
  | pending
  | processing
  | enhancing_prompt
  | generating_image
  | generating_video
  | completed
  | failed
deriving DecidableEq, Repr

/-- The fields of a stored project that `processProject` reads. -/
structure Project where
  contentType : ContentType
  productImageUrl : Option String
  sceneImageUrl : Option String
  sceneVideoUrl : Option String
  description : Option String
  videoDurationSeconds : Option Nat
  title : Option String
deriving DecidableEq, Repr

/-- One `storage.updateProject(projectId, {...})` call: only the listed
fields are written. -/
structure Update where
  status : Option ProjStatus := none
  progress : Option Nat := none
  enhancedPrompt : Option String := none
  outputImageUrl : Option String := none
  outputVideoUrl : Option String := none
  errorMessage : Option String := none
  actualCost : Option Nat := none
  klingVideoTaskId : Option String := none
  klingSoundTaskId : Option String := none
deriving DecidableEq, Repr

/-! ## Cost constants (routes, Kling variant) -/

namespace COSTS

def GEMINI_PROMPT_ENHANCEMENT : Nat := 2

def GEMINI_IMAGE_GENERATION : Nat := 2

def GEMINI_VIDEO_ANALYSIS : Nat := 3

def VIDEO_GENERATION : Nat := 130

end COSTS

/-! Cost constants of the PiAPI variant of routes.ts. -/

namespace LegacyCOSTS

def GEMINI_PROMPT_ENHANCEMENT : Nat := 2

def GEMINI_IMAGE_GENERATION : Nat := 2

def VIDEO_GENERATION : Nat := 500

end LegacyCOSTS

/-- The metered external calls of one pipeline run. -/
inductive Stage where
  | enhancement
  | imageGen
  | videoAnalysis
  | videoGen
deriving DecidableEq, Repr

/-- An attempted adapter invocation together with the arguments the
orchestrator passed to it. -/
inductive StageCall where
  | enhancement (productPath scenePath : String) (isVideo : Bool)
  | imageGen (productPath scenePath : String)
  | videoAnalysis
  | videoGen (imageUrl : String) (prompt : String)
deriving DecidableEq, Repr

/-- Which metered stage a call belongs to. -/
def StageCall.stage : StageCall → Stage
  | .enhancement _ _ _ => .enhancement
  | .imageGen _ _ => .imageGen
  | .videoAnalysis => .videoAnalysis
  | .videoGen _ _ => .videoGen

/-- Nominal cost of one attempted stage (the `COSTS` table). -/
def stageCost : Stage → Nat
  | .enhancement => COSTS.GEMINI_PROMPT_ENHANCEMENT
  | .imageGen => COSTS.GEMINI_IMAGE_GENERATION
  | .videoAnalysis => COSTS.GEMINI_VIDEO_ANALYSIS
  | .videoGen => COSTS.VIDEO_GENERATION

/-! ## Gemini adapters (services/gemini.ts) -/

/-- Result of `generateImageWithGemini`. -/
structure GeminiImage where
  base64 : String
  mimeType : String
deriving DecidableEq, Repr

/-- The catch-branch fallback of `enhancePromptWithGemini`. -/
def fallbackEnhancedPrompt (userDescription : String) : String :=
  "Professional CGI integration of product into scene with realistic lighting, shadows, and natural placement. High quality, photorealistic rendering. " ++ userDescription

/-- Adapter `enhancePromptWithGemini`: the underlying text/vision call is the
environment; every failure inside the adapter (image loading, network,
malformed response, missing API key) lands in the catch branch, which
returns the deterministic fallback instead of propagating. -/
def enhancePromptWithGemini (call : Except String String)
    (_productImagePath _sceneImagePath : String) (userDescription : String) : String :=
  match call with
  | .ok s => s
  | .error _ => fallbackEnhancedPrompt userDescription

/-- The catch-branch fallback of `enhanceVideoPromptWithGemini`. -/
def fallbackVideoPrompt (duration : Nat) (userDescription : String) : String :=
  "Professional cinematic " ++ toString duration ++ "-second video showcasing the product in the scene. Begin with an establishing shot, then smoothly " ++ (if duration ≤ 5 then ("zoom in to highlight product details") else ("move around the product with dynamic camera work")) ++ ", ending with a hero shot. Use smooth camera movements, professional lighting, and commercial video quality. " ++ userDescription

/-- Adapter `enhanceVideoPromptWithGemini`, restricted to the `enhancedPrompt` field
the orchestrator consumes. Failures fall back to a prompt derived from the
duration and the user text (`options.duration || 5`). -/
def enhanceVideoPromptWithGemini (call : Except String String)
    (_productImagePath _sceneMediaPath : String) (userDescription : String)
    (duration : Option Nat) (_isSceneVideo : Bool) : String :=
  match call with
  | .ok s => s
  | .error _ => fallbackVideoPrompt (jsOrNat duration 5) userDescription

/-- Result of `enhanceVideoPromptFromGeneratedImage`. -/
structure VideoEnhancement where
  enhancedVideoPrompt : String
  audioPrompt : Option String
  cameraMovements : String
  cinematicDirection : String
deriving DecidableEq, Repr

/-- Options of `enhanceVideoPromptFromGeneratedImage`. -/
structure VideoAnalysisDetails where
  duration : Nat
  includeAudio : Bool
  userDescription : String
  productName : String
deriving DecidableEq, Repr

/-- The catch-branch fallback of `enhanceVideoPromptFromGeneratedImage`. -/
def fallbackVideoAnalysis (d : VideoAnalysisDetails) : VideoEnhancement :=
  let cam := if d.duration ≤ 5 then
      "Smooth 5-second product focus with subtle camera push-in and gentle rotation"
    else
      "Dynamic 10-second sequence with opening wide shot, smooth dolly movement, and close-up product showcase finale"
  { enhancedVideoPrompt := "Professional CGI video: " ++ cam ++ ". Ultra-realistic " ++ toString d.duration ++ "-second commercial-quality sequence showcasing the product. Cinematic lighting, smooth motion, high-resolution output. " ++ d.userDescription
    audioPrompt := if d.includeAudio then
        some ("Natural ambient environmental sounds matching the scene atmosphere with subtle product-related audio effects")
      else none
    cameraMovements := cam
    cinematicDirection := "Professional " ++ toString d.duration ++ "-second product showcase sequence" }

/-- Adapter `enhanceVideoPromptFromGeneratedImage`: the analysed/assembled result is
the environment; the adapter's own catch branch makes it total, returning an
intelligent fallback on any failure. -/
def enhanceVideoPromptFromGeneratedImage (call : Except String VideoEnhancement)
    (_img : GeminiImage) (d : VideoAnalysisDetails) : VideoEnhancement :=
  match call with
  | .ok v => v
  | .error _ => fallbackVideoAnalysis d

/-! ## Kling video service (services/kling-video.ts, current variant) -/

/-- The `data` wrapper object a PiAPI v1 response may carry. -/
structure TaskData where
  task_id : Option String
deriving DecidableEq, Repr

/-- Shape of the JSON body of a task-creation response: the identifier can
sit in a wrapped `data.task_id` or in a direct `task_id`. -/
structure TaskResponse where
  data : Option TaskData
  task_id : Option String
deriving DecidableEq, Repr

/-- Models `const taskData = result.data || result; const taskId = taskData.task_id;`
note that a present `data` wrapper without a `task_id` does NOT fall back to
the direct field. -/
def extractTaskId (r : TaskResponse) : Option String :=
  match r.data with
  | some d => d.task_id
  | none => r.task_id

/-- Stand-in for `JSON.stringify(result)` inside error messages. -/
def renderTaskResponse (r : TaskResponse) : String :=
  "task_id=" ++ (jsTruthy r.task_id).getD ("undefined") ++ ", data.task_id=" ++
    (match r.data with
     | some d => (jsTruthy d.task_id).getD ("undefined")
     | none => "no data wrapper")

/-- The `output` object of a completed task, with the three locations the
code probes for the video URL. -/
structure KlingOutput where
  video_url : Option String
  works0_resource_without_watermark : Option String
  works0_resource : Option String
deriving DecidableEq, Repr

/-- Models `output?.video_url || output?.works?.[0]?.video?.resource_without_watermark
|| output?.works?.[0]?.video?.resource`, with the final `if (!videoUrl)`
truthiness check folded in (an empty string is rejected too). -/
def extractOutputUrl (o : KlingOutput) : Option String :=
  match jsTruthy o.video_url with
  | some u => some u
  | none =>
    match jsTruthy o.works0_resource_without_watermark with
    | some u => some u
    | none => jsTruthy o.works0_resource

/-- One polling round trip, as the loop classifies it: an HTTP-level failure
with status code and body text, or a parsed JSON body with its `status`,
optional `error` and `output` fields. -/
inductive KlingPollResp where
  | httpErr (status : Nat) (body : String)
  | httpOk (status : String) (error : Option String) (output : KlingOutput)

/-- Exit of a polling loop. -/
inductive PollOutcome where
  | done (url : String)
  | failure (msg : String)
  | timedOut
deriving DecidableEq, Repr

def maxAttemptsVideo : Nat := 60

def maxAttemptsAudio : Nat := 30

/-- The video polling loop of `generateVideoWithKling` (interval sleeps are
irrelevant to the embedding).  `fuel` is the number of iterations the
`while (attempts < maxAttempts)` guard still allows, `attempts` the checks
already made; the returned number is the total of status checks performed. -/
def klingVideoPoll (poll : Nat → KlingPollResp) : Nat → Nat → PollOutcome × Nat
  | 0, attempts => (.timedOut, attempts)
  | fuel + 1, attempts =>
      let a := attempts + 1
      match poll a with
      | .httpErr st body =>
          if st = 400 ∧ strContains body ("failed to find task") = true ∧ a ≤ maxAttemptsVideo - 5 then
            klingVideoPoll poll fuel a
          else if 10 < a ∧ (st = 400 ∨ st = 404) then
            (.failure ("Kling AI status check failed: HTTP " ++ toString st ++ " after " ++ toString a ++ " attempts. Error: " ++ body), a)
          else
            klingVideoPoll poll fuel a
      | .httpOk status err output =>
          if status = "completed" ∨ status = "success" then
            match extractOutputUrl output with
            | some u => (.done u, a)
            | none => (.failure ("Video URL not found in Kling AI response"), a)
          else if status = "failed" ∨ status = "error" then
            (.failure ("Kling AI generation failed: " ++ (jsTruthy err).getD ("Unknown error")), a)
          else
            klingVideoPoll poll fuel a

/-- The audio polling loop of `addAudioToVideo`. -/
def klingAudioPoll (poll : Nat → KlingPollResp) : Nat → Nat → PollOutcome × Nat
  | 0, attempts => (.timedOut, attempts)
  | fuel + 1, attempts =>
      let a := attempts + 1
      match poll a with
      | .httpErr st _ =>
          if 5 < a ∧ (st = 400 ∨ st = 404) then
            (.failure ("Kling Sound status check failed: HTTP " ++ toString st ++ " after " ++ toString a ++ " attempts"), a)
          else
            klingAudioPoll poll fuel a
      | .httpOk status err output =>
          if status = "completed" ∨ status = "success" then
            match extractOutputUrl output with
            | some u => (.done u, a)
            | none => (.failure ("Video with audio URL not found in Kling Sound response"), a)
          else if status = "failed" ∨ status = "error" then
            (.failure ("Kling Sound generation failed: " ++ (jsTruthy err).getD ("Unknown error")), a)
          else
            klingAudioPoll poll fuel a

/-- Observable side effects of the Kling adapter: the recovery-checkpoint
`updateProject` writes (with whether the write itself succeeded) and each
status check of a polling loop. -/
inductive KlingEvent where
  | checkpointWrite (taskId : String) (succeeded : Bool)
  | statusCheck (n : Nat)
  | soundCheckpointWrite (taskId : String) (succeeded : Bool)
  | audioStatusCheck (n : Nat)
deriving DecidableEq, Repr

/-- Environment of one `addAudioToVideo` call: the submission round trip and
the polling responses. -/
structure AudioEnv where
  submitHttpOk : Bool
  submitHttpStatus : Nat
  submitHttpBody : String
  submitResp : TaskResponse
  checkpointWriteFails : Bool
  poll : Nat → KlingPollResp

/-- Adapter `addAudioToVideo(videoTaskId, prompt, klingApiKey, projectId?, storage?)`.
`hasRecoveryHooks` models `projectId && storage` both being supplied. The
checkpoint write is wrapped in try/catch by the source, so its failure never
alters the returned value. -/
def addAudioToVideo (env : AudioEnv) (_videoTaskId _prompt : String)
    (hasRecoveryHooks : Bool) : Except String String × List KlingEvent :=
  if ¬ env.submitHttpOk then
    (.error ("Kling Sound API error: " ++ toString env.submitHttpStatus ++ " - " ++ env.submitHttpBody), [])
  else
    match jsTruthy (extractTaskId env.submitResp) with
    | none =>
        (.error ("Kling Sound API error: No task_id returned. Response: " ++ renderTaskResponse env.submitResp), [])
    | some taskId =>
        let ck := if hasRecoveryHooks then [KlingEvent.soundCheckpointWrite taskId (¬ env.checkpointWriteFails)] else []
        let pr := klingAudioPoll env.poll maxAttemptsAudio 0
        (match pr.1 with
         | .done u => .ok u
         | .failure m => .error m
         | .timedOut =>
             .error ("Kling Sound generation timed out after " ++ toString (maxAttemptsAudio * 10) ++ " seconds"),
         ck ++ (List.range pr.2).map (fun i => KlingEvent.audioStatusCheck (i + 1)))

/-- Environment of one `generateVideoWithKling` call. -/
structure KlingEnv where
  apiKeyPresent : Bool
  submitHttpOk : Bool
  submitHttpStatus : Nat
  submitHttpBody : String
  submitResp : TaskResponse
  checkpointWriteFails : Bool
  poll : Nat → KlingPollResp
  audio : AudioEnv

/-- Result record of `generateVideoWithKling`. -/
structure KlingVideoResult where
  url : String
  duration : Nat
deriving DecidableEq, Repr

/-- Body of `generateVideoWithKling` before the outer catch re-labels
failures. -/
def generateVideoWithKlingInner (env : KlingEnv) (imageUrl prompt : String)
    (durationSeconds : Nat) (includeAudio : Bool) (hasRecoveryHooks : Bool) :
    Except String KlingVideoResult × List KlingEvent :=
  if ¬ (imageUrl ≠ "" ∧ (strStartsWith imageUrl ("http://") ∨ strStartsWith imageUrl ("https://"))) then
    (.error ("Invalid image URL: " ++ imageUrl), [])
  else if ¬ env.apiKeyPresent then
    (.error ("KLING_API_KEY environment variable is required"), [])
  else if strStartsWith imageUrl ("/9j/") ∨ 1000 < imageUrl.length then
    (.error ("CRITICAL: Still sending base64 instead of URL! Length: " ++ toString imageUrl.length), [])
  else if ¬ env.submitHttpOk then
    (.error ("Kling AI API error: " ++ toString env.submitHttpStatus ++ " - " ++ env.submitHttpBody), [])
  else
    match jsTruthy (extractTaskId env.submitResp) with
    | none =>
        (.error ("Kling AI API error: No task_id returned. Response: " ++ renderTaskResponse env.submitResp), [])
    | some taskId =>
        let ck := if hasRecoveryHooks then [KlingEvent.checkpointWrite taskId (¬ env.checkpointWriteFails)] else []
        let pr := klingVideoPoll env.poll maxAttemptsVideo 0
        let pollEvents := (List.range pr.2).map (fun i => KlingEvent.statusCheck (i + 1))
        match pr.1 with
        | .failure m => (.error m, ck ++ pollEvents)
        | .timedOut =>
            (.error ("Kling AI video generation timed out after " ++ toString (maxAttemptsVideo * 10) ++ " seconds"), ck ++ pollEvents)
        | .done videoUrl =>
            if includeAudio then
              let ar := addAudioToVideo env.audio taskId prompt hasRecoveryHooks
              match ar.1 with
              | .ok u => (.ok { url := u, duration := durationSeconds }, ck ++ pollEvents ++ ar.2)
              | .error _ => (.ok { url := videoUrl, duration := durationSeconds }, ck ++ pollEvents ++ ar.2)
            else
              (.ok { url := videoUrl, duration := durationSeconds }, ck ++ pollEvents)

/-- Adapter `generateVideoWithKling`: the whole body sits in a try/catch whose catch
re-throws every failure as `Kling AI video generation failed: <message>`. -/
def generateVideoWithKling (env : KlingEnv) (imageUrl prompt : String)
    (durationSeconds : Nat) (includeAudio : Bool) (hasRecoveryHooks : Bool) :
    Except String KlingVideoResult × List KlingEvent :=
  (match (generateVideoWithKlingInner env imageUrl prompt durationSeconds includeAudio hasRecoveryHooks).1 with
   | .ok r => .ok r
   | .error m => .error ("Kling AI video generation failed: " ++ m),
   (generateVideoWithKlingInner env imageUrl prompt durationSeconds includeAudio hasRecoveryHooks).2)

/-! ## Pipeline orchestrator (`processProject`, Kling/Cloudinary variant) -/

/-- Environment of one pipeline run: the project the storage lookup returns
and the outcome of each external call the run may make. -/
structure PipelineEnv where
  getProject : Option Project
  enhanceCall : Except String String
  videoEnhanceCall : Except String String
  imageGen : Except String GeminiImage
  cloudinaryUpload : Except String String
  videoAnalysisCall : Except String VideoEnhancement
  kling : KlingEnv

/-- How a run ends: the success write or the outer catch. -/
inductive RunOutcome where
  | success
  | failureWith (msg : String)
deriving DecidableEq, Repr

/-- The run's terminal `updateProject`: both the completion write and the
outer catch's failure write carry the accumulated `actualCost`. -/
def mkTerminal : RunOutcome → Nat → Update
  | .success, c => { status := some .completed, progress := some 100, actualCost := some c }
  | .failureWith m, c => { status := some .failed, errorMessage := some m, actualCost := some c }

/-- Everything a run produces before its terminal write. -/
structure RunTrace where
  pre : List Update
  attempts : List StageCall
  charges : List Nat
  klingEvents : List KlingEvent
  outcome : RunOutcome

/-- Path `extractRelativePath(project.productImageUrl || "")`. -/
def productPathOf (p : Project) : String :=
  extractRelativePath (jsOrStr p.productImageUrl (""))

/-- Path `extractRelativePath(project.sceneImageUrl || "")`. -/
def sceneImagePathOf (p : Project) : String :=
  extractRelativePath (jsOrStr p.sceneImageUrl (""))

/-- Path `extractRelativePath(project.sceneVideoUrl || "")`. -/
def sceneVideoPathOf (p : Project) : String :=
  extractRelativePath (jsOrStr p.sceneVideoUrl (""))

/-- Condition `project.contentType === "video" && sceneVideoPath` (truthiness). -/
def sceneIsVideo (p : Project) : Prop :=
  p.contentType = ContentType.video ∧ sceneVideoPathOf p ≠ ""

instance (p : Project) : Decidable (sceneIsVideo p) := by
  unfold sceneIsVideo; infer_instance

/-- The scene reference handed to prompt enhancement: prefer the scene video
over the scene image for video projects. -/
def scenePathOf (p : Project) : String :=
  if sceneIsVideo p then sceneVideoPathOf p else sceneImagePathOf p

/-- Value `project.videoDurationSeconds || undefined`. -/
def videoDurationArg (p : Project) : Option Nat :=
  match p.videoDurationSeconds with
  | some n => if n = 0 then none else some n
  | none => none

/-- The enhanced prompt of stage 1: video projects use the video-specific
enhancement, image projects the plain one; both are total. -/
def enhancedPromptOf (env : PipelineEnv) (p : Project) : String :=
  match p.contentType with
  | .video =>
      enhanceVideoPromptWithGemini env.videoEnhanceCall (productPathOf p) (scenePathOf p)
        (jsOrStr p.description ("CGI video generation")) (videoDurationArg p)
        (decide (sceneIsVideo p))
  | .image =>
      enhancePromptWithGemini env.enhanceCall (productPathOf p) (scenePathOf p)
        (jsOrStr p.description ("CGI image generation"))

/-- The four writes every run makes up to and including the
`generating_image` transition. -/
def preHeaderOf (env : PipelineEnv) (p : Project) : List Update :=
  [ { status := some .processing, progress := some 10 },
    { status := some .enhancing_prompt, progress := some 25 },
    { enhancedPrompt := some (enhancedPromptOf env p), progress := some 50 },
    { status := some .generating_image, progress := some 60 } ]

/-- The two adapter calls every run attempts (with their arguments): prompt
enhancement gets the preferred scene path, image composition always gets the
scene-image path. -/
def attemptsHeaderOf (p : Project) : List StageCall :=
  [ .enhancement (productPathOf p) (scenePathOf p) (decide (p.contentType = ContentType.video)),
    .imageGen (productPathOf p) (sceneImagePathOf p) ]

/-- The two charges every run records (both sit in `finally` blocks). -/
def chargesHeader : List Nat :=
  [stageCost .enhancement, stageCost .imageGen]

/-- Options passed to `enhanceVideoPromptFromGeneratedImage` (the call site
hardcodes `includeAudio: false`). -/
def analysisDetailsOf (p : Project) : VideoAnalysisDetails :=
  { duration := jsOrNat p.videoDurationSeconds 10,
    includeAudio := false,
    userDescription := jsOrStr p.description (""),
    productName := jsOrStr p.title ("Product") }

/-- The video prompt handed to the video generator: the re-analysis result
(or its internal fallback). -/
def finalVideoPromptOf (env : PipelineEnv) (p : Project) (img : GeminiImage) : String :=
  (enhanceVideoPromptFromGeneratedImage env.videoAnalysisCall img (analysisDetailsOf p)).enhancedVideoPrompt

/-- The video-generation call made by the orchestrator: note
`includeAudio = false` and no recovery hooks, exactly as at the call site. -/
def klingResultOf (env : PipelineEnv) (p : Project) (imageUrl : String) (img : GeminiImage) :
    Except String KlingVideoResult × List KlingEvent :=
  generateVideoWithKling env.kling imageUrl (finalVideoPromptOf env p img)
    (jsOrNat p.videoDurationSeconds 10) false false

/-- The body of `processProject` (Kling/Cloudinary variant): every update
before the terminal one, the attempted adapter calls in order, the cost
charges in order, and how the run ends.

Notes kept from the source:
* the prompt-enhancement and image-generation charges sit in `finally`
  blocks, so they are recorded even when the call throws;
* `enhanceVideoPromptFromGeneratedImage` is total (its own catch returns a
  fallback), so its call-site catch is unreachable and its charge — recorded
  after the call rather than in a `finally` — is nevertheless always made;
* `generateVideoWithKling` is called with `includeAudio = false` and without
  the recovery-hook arguments `projectId`/`storage`;
* a video-generation failure first writes `errorMessage`/`failed` without
  cost, then rethrows into the outer catch which writes the terminal
  `failed` update with the accumulated cost. -/
def processTrace (env : PipelineEnv) : RunTrace :=
  match env.getProject with
  | none =>
      { pre := [], attempts := [], charges := [], klingEvents := [],
        outcome := .failureWith ("Project not found") }
  | some project =>
      match env.imageGen with
      | .error e =>
          { pre := preHeaderOf env project, attempts := attemptsHeaderOf project,
            charges := chargesHeader, klingEvents := [], outcome := .failureWith e }
      | .ok img =>
        match env.cloudinaryUpload with
        | .error e =>
            { pre := preHeaderOf env project, attempts := attemptsHeaderOf project,
              charges := chargesHeader, klingEvents := [], outcome := .failureWith e }
        | .ok imageUrl =>
          match project.contentType with
          | .image =>
              { pre := preHeaderOf env project ++
                  [ { outputImageUrl := some imageUrl, progress := some 75 } ],
                attempts := attemptsHeaderOf project, charges := chargesHeader,
                klingEvents := [], outcome := .success }
          | .video =>
              let kres := klingResultOf env project imageUrl img
              match kres.1 with
              | .ok r =>
                  { pre := preHeaderOf env project ++
                      [ { outputImageUrl := some imageUrl, progress := some 75 },
                        { status := some .generating_video, progress := some 78 },
                        { status := some .generating_video, progress := some 80 },
                        { outputVideoUrl := some r.url, progress := some 95 } ],
                    attempts := attemptsHeaderOf project ++
                      [ .videoAnalysis, .videoGen imageUrl (finalVideoPromptOf env project img) ],
                    charges := chargesHeader ++ [stageCost .videoAnalysis, stageCost .videoGen],
                    klingEvents := kres.2, outcome := .success }
              | .error e =>
                  { pre := preHeaderOf env project ++
                      [ { outputImageUrl := some imageUrl, progress := some 75 },
                        { status := some .generating_video, progress := some 78 },
                        { status := some .generating_video, progress := some 80 },
                        { errorMessage := some ("Video generation failed: " ++ e), status := some .failed } ],
                    attempts := attemptsHeaderOf project ++
                      [ .videoAnalysis, .videoGen imageUrl (finalVideoPromptOf env project img) ],
                    charges := chargesHeader ++ [stageCost .videoAnalysis, stageCost .videoGen],
                    klingEvents := kres.2, outcome := .failureWith e }

/-- Full observable behaviour of one pipeline run. -/
structure RunResult where
  updates : List Update
  attempts : List StageCall
  charges : List Nat
  klingEvents : List KlingEvent
  finalCost : Nat

/-- Orchestrator `processProject` (Kling/Cloudinary variant): the update trace is the
pre-terminal writes followed by the single terminal write that carries the
accumulated cost. -/
def processProject (env : PipelineEnv) : RunResult :=
  let t := processTrace env
  { updates := t.pre ++ [mkTerminal t.outcome t.charges.sum],
    attempts := t.attempts,
    charges := t.charges,
    klingEvents := t.klingEvents,
    finalCost := t.charges.sum }

/-! ## PiAPI video service (`generateVideoWithPiAPI`, services/piapi variant) -/

/-- Result record of `generateVideoWithPiAPI`. -/
structure PiAPIVideoResult where
  url : String
  duration : Nat
deriving DecidableEq, Repr

/-- One polling round trip of the PiAPI loop: HTTP failure, or a body with a
`status` and an `output` array of result URLs. -/
inductive PiAPIPollResp where
  | httpErr (status : Nat)
  | httpOk (status : String) (output : List String)

/-- Environment of one `generateVideoWithPiAPI` call.  `submitId` is the
`job.id` field of the creation response; the source extracts it without any
validation, which is what claim C9 is about. -/
structure PiAPIEnv where
  submitHttpOk : Bool
  submitHttpStatus : Nat
  submitId : Option String
  poll : Nat → PiAPIPollResp

/-- The PiAPI polling loop: any HTTP error aborts, `completed` with a
non-empty `output` array returns its first URL, `failed` aborts, anything
else keeps polling up to 60 attempts. -/
def piapiPollLoop (poll : Nat → PiAPIPollResp) : Nat → Nat → PollOutcome × Nat
  | 0, attempts => (.timedOut, attempts)
  | fuel + 1, attempts =>
      let a := attempts + 1
      match poll a with
      | .httpErr st => (.failure ("PiAPI status check error: " ++ toString st), a)
      | .httpOk status output =>
          if status = "completed" ∧ output ≠ [] then (.done (output.headD ("")), a)
          else if status = "failed" then (.failure ("Video generation failed"), a)
          else piapiPollLoop poll fuel a

/-- Adapter `generateVideoWithPiAPI`: the submission checks only `response.ok`; the
extracted `job.id` is never validated, so a successful HTTP response with no
task identifier still proceeds to the polling phase.  The second component
records whether execution reached the polling phase (the submission was
treated as successful).  The outer catch replaces every failure message with
a generic one. -/
def generateVideoWithPiAPI (env : PiAPIEnv) (_imageUrl : String) :
    Except String PiAPIVideoResult × Bool :=
  let inner : Except String PiAPIVideoResult × Bool :=
    if ¬ env.submitHttpOk then
      (.error ("PiAPI error: " ++ toString env.submitHttpStatus), false)
    else
      let pr := piapiPollLoop env.poll 60 0
      match pr.1 with
      | .done u => (.ok { url := u, duration := 5 }, true)
      | .failure m => (.error m, true)
      | .timedOut => (.error ("Video generation timeout"), true)
  match inner.1 with
  | .ok r => (.ok r, inner.2)
  | .error _ => (.error ("Failed to generate video with PiAPI"), inner.2)

/-! ## Pipeline orchestrator (`processProject`, PiAPI/ObjectStorage variant
in routes.ts) -/

/-- Environment of one run of the PiAPI variant of `processProject`. -/
structure LegacyEnv where
  getProject : Option Project
  enhanceCall : Except String String
  videoEnhanceCall : Except String String
  imageGen : Except String GeminiImage
  uploadUrlInfo : Except String String
  uploadPutOk : Bool
  videoResult : Except String String

/-- The body of the PiAPI variant of `processProject`.  The decisive
difference from the Kling variant: the video-generation try/catch swallows
the failure (`// Still mark as completed since image generation succeeded`),
so the run falls through to the `completed` terminal write. -/
def processTraceLegacy (env : LegacyEnv) : RunTrace :=
  match env.getProject with
  | none =>
      { pre := [], attempts := [], charges := [], klingEvents := [],
        outcome := .failureWith ("Project not found") }
  | some project =>
      let u₁ : List Update :=
        [ { status := some .processing, progress := some 10 },
          { status := some .enhancing_prompt, progress := some 25 } ]
      let productImagePath := extractRelativePath (jsOrStr project.productImageUrl (""))
      let sceneImagePath := extractRelativePath (jsOrStr project.sceneImageUrl (""))
      let sceneVideoPath := extractRelativePath (jsOrStr project.sceneVideoUrl (""))
      let sceneIsVideo := project.contentType = ContentType.video ∧ sceneVideoPath ≠ ""
      let scenePath := if sceneIsVideo then sceneVideoPath else sceneImagePath
      let enhancedPrompt :=
        match project.contentType with
        | .video =>
            enhanceVideoPromptWithGemini env.videoEnhanceCall productImagePath scenePath
              (jsOrStr project.description ("CGI video generation"))
              project.videoDurationSeconds (decide sceneIsVideo)
        | .image =>
            enhancePromptWithGemini env.enhanceCall productImagePath scenePath
              (jsOrStr project.description ("CGI image generation"))
      let attempts₁ : List StageCall :=
        [ .enhancement productImagePath scenePath (decide (project.contentType = ContentType.video)) ]
      let charges₁ : List Nat := [LegacyCOSTS.GEMINI_PROMPT_ENHANCEMENT]
      let u₂ := u₁ ++
        [ { enhancedPrompt := some enhancedPrompt, progress := some 50 },
          { status := some .generating_image, progress := some 60 } ]
      let attempts₂ := attempts₁ ++ [StageCall.imageGen productImagePath sceneImagePath]
      let charges₂ := charges₁ ++ [LegacyCOSTS.GEMINI_IMAGE_GENERATION]
      match env.imageGen with
      | .error e =>
          { pre := u₂, attempts := attempts₂, charges := charges₂, klingEvents := [],
            outcome := .failureWith e }
      | .ok _ =>
        match env.uploadUrlInfo with
        | .error e =>
            { pre := u₂, attempts := attempts₂, charges := charges₂, klingEvents := [],
              outcome := .failureWith e }
        | .ok relativePath =>
          if ¬ env.uploadPutOk then
            { pre := u₂, attempts := attempts₂, charges := charges₂, klingEvents := [],
              outcome := .failureWith ("Failed to upload generated image") }
          else
            let imageUrl := "http://localhost:5000/public-objects/" ++ relativePath
            let u₃ := u₂ ++ [ { outputImageUrl := some imageUrl, progress := some 75 } ]
            match project.contentType with
            | .image =>
                { pre := u₃, attempts := attempts₂, charges := charges₂, klingEvents := [],
                  outcome := .success }
            | .video =>
                let u₄ := u₃ ++ [ { status := some .generating_video, progress := some 80 } ]
                let attempts₃ := attempts₂ ++ [StageCall.videoGen imageUrl ("")]
                let charges₃ := charges₂ ++ [LegacyCOSTS.VIDEO_GENERATION]
                match env.videoResult with
                | .ok videoUrl =>
                    { pre := u₄ ++ [ { outputVideoUrl := some videoUrl, progress := some 95 } ],
                      attempts := attempts₃, charges := charges₃, klingEvents := [],
                      outcome := .success }
                | .error _ =>
                    { pre := u₄, attempts := attempts₃, charges := charges₃, klingEvents := [],
                      outcome := .success }

/-- The PiAPI variant of `processProject`. -/
def processProjectLegacy (env : LegacyEnv) : RunResult :=
  let t := processTraceLegacy env
  { updates := t.pre ++ [mkTerminal t.outcome t.charges.sum],
    attempts := t.attempts,
    charges := t.charges,
    klingEvents := t.klingEvents,
    finalCost := t.charges.sum }

/-! ## Helper lemmas -/

/-- No update before the terminal one carries `actualCost`. -/
theorem processTrace_pre_actualCost (env : PipelineEnv) :
    ∀ u ∈ (processTrace env).pre, u.actualCost = none := by
  unfold processTrace
  cases hp : env.getProject with
  | none => simp
  | some project =>
    cases hi : env.imageGen with
    | error e => simp [preHeaderOf]
    | ok img =>
      cases hc : env.cloudinaryUpload with
      | error e => simp [preHeaderOf]
      | ok imageUrl =>
        cases hct : project.contentType with
        | image => simp [hct, preHeaderOf]
        | video =>
          cases hk : (klingResultOf env project imageUrl img).1 with
          | ok r => simp [hct, hk, preHeaderOf]
          | error e => simp [hct, hk, preHeaderOf]

/-- The two terminal writes both carry the accumulated cost. -/
theorem mkTerminal_actualCost (o : RunOutcome) (c : Nat) :
    (mkTerminal o c).actualCost = some c := by
  cases o <;> rfl

/-- The terminal write always sets a terminal status. -/
theorem mkTerminal_status (o : RunOutcome) (c : Nat) :
    (mkTerminal o c).status = some ProjStatus.completed ∨
    (mkTerminal o c).status = some ProjStatus.failed := by
  cases o with
  | success => exact Or.inl rfl
  | failureWith m => exact Or.inr rfl

/-- The terminal write never touches the output-video field. -/
theorem mkTerminal_outputVideoUrl (o : RunOutcome) (c : Nat) :
    (mkTerminal o c).outputVideoUrl = none := by
  cases o <;> rfl

/-- The terminal write never touches the task-id recovery fields. -/
theorem mkTerminal_klingVideoTaskId (o : RunOutcome) (c : Nat) :
    (mkTerminal o c).klingVideoTaskId = none := by
  cases o <;> rfl

/-- The run's update trace is its pre-terminal writes followed by the single
terminal write. -/
theorem processProject_updates_shape (env : PipelineEnv) :
    (processProject env).updates =
      (processTrace env).pre ++ [mkTerminal (processTrace env).outcome (processProject env).finalCost] := rfl

/-- In every run, the recorded charges are exactly the nominal costs of the
attempted stages, in order. -/
theorem processTrace_charges_eq (env : PipelineEnv) :
    (processTrace env).charges =
      (processTrace env).attempts.map (fun c => stageCost c.stage) := by
  unfold processTrace
  cases hp : env.getProject with
  | none => simp
  | some project =>
    cases hi : env.imageGen with
    | error e => simp [attemptsHeaderOf, chargesHeader, StageCall.stage]
    | ok img =>
      cases hc : env.cloudinaryUpload with
      | error e => simp [attemptsHeaderOf, chargesHeader, StageCall.stage]
      | ok imageUrl =>
        cases hct : project.contentType with
        | image => simp [hct, attemptsHeaderOf, chargesHeader, StageCall.stage]
        | video =>
          cases hk : (klingResultOf env project imageUrl img).1 with
          | ok r => simp [hct, hk, attemptsHeaderOf, chargesHeader, StageCall.stage]
          | error e => simp [hct, hk, attemptsHeaderOf, chargesHeader, StageCall.stage]

/-- The flushed cost is the sum of the nominal costs of the attempted
stages. -/
theorem processProject_finalCost_eq (env : PipelineEnv) :
    (processProject env).finalCost =
      ((processProject env).attempts.map (fun c => stageCost c.stage)).sum := by
  have h := processTrace_charges_eq env
  unfold processProject
  simp only [← h]

/-- Every run's attempt list starts with the prompt-enhancement and
image-composition calls. -/
theorem processProject_attempts_shape (env : PipelineEnv) (p : Project)
    (hp : env.getProject = some p) :
    ∃ rest, (processProject env).attempts = attemptsHeaderOf p ++ rest := by
  unfold processProject processTrace
  rw [hp]
  cases hi : env.imageGen with
  | error e => exact ⟨[], by simp⟩
  | ok img =>
    cases hc : env.cloudinaryUpload with
    | error e => exact ⟨[], by simp⟩
    | ok imageUrl =>
      cases hct : p.contentType with
      | image => exact ⟨[], by simp [hct]⟩
      | video =>
        cases hk : (klingResultOf env p imageUrl img).1 with
        | ok r =>
          exact ⟨[.videoAnalysis, .videoGen imageUrl (finalVideoPromptOf env p img)], by simp [hct, hk]⟩
        | error e =>
          exact ⟨[.videoAnalysis, .videoGen imageUrl (finalVideoPromptOf env p img)], by simp [hct, hk]⟩

/-- A non-empty reference stays non-empty through `extractRelativePath`. -/
theorem extractRelativePath_ne_empty (s : String) (hs : s ≠ "") :
    extractRelativePath s ≠ "" := by
  unfold extractRelativePath
  cases h : parseUrlPathname s with
  | none => exact hs
  | some pathname =>
    dsimp only
    cases h2 : afterMarker ("/public-objects/").data pathname.data with
    | none => exact hs
    | some rest =>
      dsimp only
      by_cases hr : rest = []
      · simpa [hr] using hs
      · simp only [if_neg hr]
        intro hcon
        exact hr (by simpa using congrArg String.data hcon)

/-- Appending to a non-empty string keeps it non-empty. -/
theorem append_left_ne_empty (a b : String) (ha : a ≠ "") : a ++ b ≠ "" := by
  intro h
  apply ha
  have hd := congrArg String.data h
  rw [String.data_append] at hd
  rcases List.append_eq_nil.mp hd with ⟨h1, _⟩
  cases a with
  | mk l => cases h1; rfl

/-- A string contains any of its suffixes. -/
theorem strContains_append_self (a b : String) : strContains (a ++ b) b = true := by
  unfold strContains
  rw [decide_eq_true_eq, String.data_append]
  exact (List.suffix_append a.data b.data).isInfix

/-- Every failure of `generateVideoWithKling` is re-labelled by its outer
catch, so its message carries the fixed non-empty context and is never the
empty string. -/
theorem generateVideoWithKling_error_shape (env : KlingEnv) (imageUrl prompt : String)
    (d : Nat) (a hooks : Bool) (e : String)
    (h : (generateVideoWithKling env imageUrl prompt d a hooks).1 = .error e) :
    (∃ m, e = "Kling AI video generation failed: " ++ m) ∧ e ≠ "" := by
  unfold generateVideoWithKling at h
  cases hin : (generateVideoWithKlingInner env imageUrl prompt d a hooks).1 with
  | ok r => rw [hin] at h; simp at h
  | error m =>
    rw [hin] at h
    simp only [Except.error.injEq] at h
    subst h
    exact ⟨⟨m, rfl⟩, append_left_ne_empty _ _ (by decide)⟩

/-- A polling response that keeps both loops going: HTTP success with a
still-in-progress status. -/
def isStillRunning : KlingPollResp → Prop
  | .httpErr _ _ => False
  | .httpOk s _ _ => s = "processing" ∨ s = "pending" ∨ s = "running"

/-- A task that keeps reporting a still-in-progress status makes the video
poll loop run its full fuel and time out. -/
theorem klingVideoPoll_still (poll : Nat → KlingPollResp)
    (h : ∀ i, isStillRunning (poll i)) :
    ∀ fuel attempts, klingVideoPoll poll fuel attempts = (.timedOut, attempts + fuel) := by
  intro fuel
  induction fuel with
  | zero => intro attempts; simp [klingVideoPoll]
  | succ n ih =>
    intro attempts
    have hs := h (attempts + 1)
    rw [klingVideoPoll]
    cases hr : poll (attempts + 1) with
    | httpErr st body => rw [hr] at hs; exact absurd hs id
    | httpOk s err out =>
      rw [hr] at hs
      rcases hs with rfl | rfl | rfl <;>
        · simp only [String.reduceEq, or_self, or_false, false_or, if_false, reduceIte]
          rw [ih (attempts + 1)]
          exact congrArg _ (by omega)

/-- A task that keeps reporting a still-in-progress status makes the audio
poll loop run its full fuel and time out. -/
theorem klingAudioPoll_still (poll : Nat → KlingPollResp)
    (h : ∀ i, isStillRunning (poll i)) :
    ∀ fuel attempts, klingAudioPoll poll fuel attempts = (.timedOut, attempts + fuel) := by
  intro fuel
  induction fuel with
  | zero => intro attempts; simp [klingAudioPoll]
  | succ n ih =>
    intro attempts
    have hs := h (attempts + 1)
    rw [klingAudioPoll]
    cases hr : poll (attempts + 1) with
    | httpErr st body => rw [hr] at hs; exact absurd hs id
    | httpOk s err out =>
      rw [hr] at hs
      rcases hs with rfl | rfl | rfl <;>
        · simp only [String.reduceEq, or_self, or_false, false_or, if_false, reduceIte]
          rw [ih (attempts + 1)]
          exact congrArg _ (by omega)

/-- The video poll loop never performs more status checks than its fuel
allows (so it always terminates within `maxAttempts` checks). -/
theorem klingVideoPoll_count_le (poll : Nat → KlingPollResp) :
    ∀ fuel attempts, (klingVideoPoll poll fuel attempts).2 ≤ attempts + fuel := by
  intro fuel
  induction fuel with
  | zero => intro attempts; simp [klingVideoPoll]
  | succ n ih =>
    intro attempts
    rw [klingVideoPoll]
    cases poll (attempts + 1) with
    | httpErr st body =>
      repeat' split
      all_goals first
        | exact le_trans (ih (attempts + 1)) (by omega)
        | (dsimp only; omega)
    | httpOk s err out =>
      repeat' split
      all_goals first
        | exact le_trans (ih (attempts + 1)) (by omega)
        | (dsimp only; omega)

/-- The audio poll loop never performs more status checks than its fuel
allows. -/
theorem klingAudioPoll_count_le (poll : Nat → KlingPollResp) :
    ∀ fuel attempts, (klingAudioPoll poll fuel attempts).2 ≤ attempts + fuel := by
  intro fuel
  induction fuel with
  | zero => intro attempts; simp [klingAudioPoll]
  | succ n ih =>
    intro attempts
    rw [klingAudioPoll]
    cases poll (attempts + 1) with
    | httpErr st body =>
      repeat' split
      all_goals first
        | exact le_trans (ih (attempts + 1)) (by omega)
        | (dsimp only; omega)
    | httpOk s err out =>
      repeat' split
      all_goals first
        | exact le_trans (ih (attempts + 1)) (by omega)
        | (dsimp only; omega)

/-- Is this Kling event the video-task checkpoint write? -/
def KlingEvent.isCheckpoint : KlingEvent → Bool
  | .checkpointWrite _ _ => true
  | _ => false

/-- Under a valid URL, present API key, successful submission and an
extracted task id, the inner Kling body reaches the post-submission code. -/
theorem generateVideoWithKlingInner_submitted (env : KlingEnv)
    (imageUrl prompt : String) (d : Nat) (includeAudio hooks : Bool) (taskId : String)
    (hne : imageUrl ≠ "")
    (hhttp : strStartsWith imageUrl ("http://") = true ∨ strStartsWith imageUrl ("https://") = true)
    (h9j : strStartsWith imageUrl ("/9j/") = false)
    (hlen : imageUrl.length ≤ 1000)
    (hkey : env.apiKeyPresent = true)
    (hsub : env.submitHttpOk = true)
    (hid : jsTruthy (extractTaskId env.submitResp) = some taskId) :
    generateVideoWithKlingInner env imageUrl prompt d includeAudio hooks =
      (match (klingVideoPoll env.poll maxAttemptsVideo 0).1 with
       | .failure m =>
           (.error m,
            (if hooks then [KlingEvent.checkpointWrite taskId (¬ env.checkpointWriteFails)] else []) ++
              (List.range (klingVideoPoll env.poll maxAttemptsVideo 0).2).map (fun i => KlingEvent.statusCheck (i + 1)))
       | .timedOut =>
           (.error ("Kling AI video generation timed out after " ++ toString (maxAttemptsVideo * 10) ++ " seconds"),
            (if hooks then [KlingEvent.checkpointWrite taskId (¬ env.checkpointWriteFails)] else []) ++
              (List.range (klingVideoPoll env.poll maxAttemptsVideo 0).2).map (fun i => KlingEvent.statusCheck (i + 1)))
       | .done videoUrl =>
           if includeAudio then
             match (addAudioToVideo env.audio taskId prompt hooks).1 with
             | .ok u =>
                 (.ok { url := u, duration := d },
                  (if hooks then [KlingEvent.checkpointWrite taskId (¬ env.checkpointWriteFails)] else []) ++
                    (List.range (klingVideoPoll env.poll maxAttemptsVideo 0).2).map (fun i => KlingEvent.statusCheck (i + 1)) ++
                    (addAudioToVideo env.audio taskId prompt hooks).2)
             | .error _ =>
                 (.ok { url := videoUrl, duration := d },
                  (if hooks then [KlingEvent.checkpointWrite taskId (¬ env.checkpointWriteFails)] else []) ++
                    (List.range (klingVideoPoll env.poll maxAttemptsVideo 0).2).map (fun i => KlingEvent.statusCheck (i + 1)) ++
                    (addAudioToVideo env.audio taskId prompt hooks).2)
           else
             (.ok { url := videoUrl, duration := d },
              (if hooks then [KlingEvent.checkpointWrite taskId (¬ env.checkpointWriteFails)] else []) ++
                (List.range (klingVideoPoll env.poll maxAttemptsVideo 0).2).map (fun i => KlingEvent.statusCheck (i + 1)))) := by
  unfold generateVideoWithKlingInner
  rw [if_neg (not_not_intro ⟨hne, by rcases hhttp with h | h <;> simp [h]⟩)]
  rw [if_neg (by simp [hkey])]
  rw [if_neg (by simp [h9j]; omega)]
  rw [if_neg (by simp [hsub])]
  rw [hid]

/-! ## Concrete environments used by witnesses and counterexamples -/

/-- A status response that keeps a poll loop going. -/
def stillResp : KlingPollResp :=
  .httpOk ("processing") none { video_url := none, works0_resource_without_watermark := none, works0_resource := none }

/-- A completed status response carrying a video URL. -/
def doneResp (u : String) : KlingPollResp :=
  .httpOk ("completed") none { video_url := some u, works0_resource_without_watermark := none, works0_resource := none }

/-- An audio environment whose submission request is rejected. -/
def exAudioFailEnv : AudioEnv :=
  { submitHttpOk := false, submitHttpStatus := 500, submitHttpBody := "audio backend down",
    submitResp := { data := none, task_id := none }, checkpointWriteFails := false,
    poll := fun _ => stillResp }

/-- An audio environment with a 200 submission response that carries no task
identifier. -/
def exAudioNoIdEnv : AudioEnv :=
  { submitHttpOk := true, submitHttpStatus := 200, submitHttpBody := "",
    submitResp := { data := some { task_id := none }, task_id := none }, checkpointWriteFails := false,
    poll := fun _ => stillResp }

/-- A Kling environment where everything succeeds at the first poll (and the
audio sub-environment fails at submission). -/
def exKlingOkEnv : KlingEnv :=
  { apiKeyPresent := true, submitHttpOk := true, submitHttpStatus := 200, submitHttpBody := "",
    submitResp := { data := some { task_id := some ("vid-task-1") }, task_id := none },
    checkpointWriteFails := false,
    poll := fun _ => doneResp ("https://cdn.example.com/video-silent.mp4"),
    audio := exAudioFailEnv }

/-- A Kling environment whose job submission is rejected. -/
def exKlingSubmitFailEnv : KlingEnv :=
  { exKlingOkEnv with submitHttpOk := false, submitHttpStatus := 500, submitHttpBody := "kling rejected" }

/-- A Kling environment with a 200 submission response carrying no task
identifier. -/
def exKlingNoIdEnv : KlingEnv :=
  { exKlingOkEnv with submitResp := { data := some { task_id := none }, task_id := none } }

/-- A Kling environment whose task reports `processing` forever. -/
def exKlingStillEnv : KlingEnv :=
  { exKlingOkEnv with poll := fun _ => stillResp }

/-- A stored video project. -/
def exVideoProject : Project :=
  { contentType := .video,
    productImageUrl := some ("https://app.example.com/public-objects/u1/product.png"),
    sceneImageUrl := some ("https://app.example.com/public-objects/u1/scene.png"),
    sceneVideoUrl := none,
    description := some ("showcase the bottle"),
    videoDurationSeconds := some 10,
    title := some ("Bottle Ad") }

/-- A stored image project. -/
def exImageProject : Project :=
  { contentType := .image,
    productImageUrl := some ("https://app.example.com/public-objects/u1/product.png"),
    sceneImageUrl := some ("https://app.example.com/public-objects/u1/scene.png"),
    sceneVideoUrl := none,
    description := some ("place the bottle on the shelf"),
    videoDurationSeconds := none,
    title := some ("Shelf Ad") }

/-- A video project whose scene reference is a video. -/
def exSceneVideoProject : Project :=
  { exVideoProject with
    sceneImageUrl := none,
    sceneVideoUrl := some ("https://app.example.com/public-objects/u1/scene.mp4") }

/-- A pipeline environment where every stage succeeds. -/
def exPipelineVideoEnv : PipelineEnv :=
  { getProject := some exVideoProject,
    enhanceCall := .ok ("enhanced image prompt"),
    videoEnhanceCall := .ok ("enhanced video prompt"),
    imageGen := .ok { base64 := "QkFTRTY0", mimeType := "image/png" },
    cloudinaryUpload := .ok ("https://res.cloudinary.com/demo/cgi-generated/gen-1.png"),
    videoAnalysisCall := .ok { enhancedVideoPrompt := "cinematic video prompt", audioPrompt := none,
                               cameraMovements := "slow push-in", cinematicDirection := "hero shot" },
    kling := exKlingOkEnv }

/-- The same run with the video-generation submission failing. -/
def exPipelineVideoFailEnv : PipelineEnv :=
  { exPipelineVideoEnv with kling := exKlingSubmitFailEnv }

/-- The same run with the video task polling `processing` forever. -/
def exPipelineVideoStillEnv : PipelineEnv :=
  { exPipelineVideoEnv with kling := exKlingStillEnv }

/-- An image-project run where every stage succeeds. -/
def exPipelineImageEnv : PipelineEnv :=
  { exPipelineVideoEnv with getProject := some exImageProject }

/-- An image-project run whose prompt-enhancement call fails. -/
def exPipelineImageFallbackEnv : PipelineEnv :=
  { exPipelineImageEnv with enhanceCall := .error ("gemini unavailable") }

/-- A video run whose scene reference is a video. -/
def exPipelineSceneVideoEnv : PipelineEnv :=
  { exPipelineVideoEnv with getProject := some exSceneVideoProject }

/-! ## Claims -/

/-- C2: within every pipeline run the cost accumulator is monotonically
non-decreasing (every prefix sum of the recorded charges is at most the
final total), `actualCost` is carried by exactly one storage write — the
terminal update, which sets `completed` or `failed` — no pre-terminal write
carries it, and its value is the sum of the nominal costs of every adapter
call attempted during the run, succeeded or not. -/
theorem c2_actualCost_single_terminal_flush (env : PipelineEnv) :
    (∃ t, (processProject env).updates.getLast? = some t ∧
        t.actualCost = some (processProject env).finalCost ∧
        (t.status = some ProjStatus.completed ∨ t.status = some ProjStatus.failed)) ∧
    (∀ u ∈ (processProject env).updates.dropLast, u.actualCost = none) ∧
    (processProject env).finalCost =
      ((processProject env).attempts.map (fun c => stageCost c.stage)).sum ∧
    (∀ n, ((processProject env).charges.take n).sum ≤ (processProject env).finalCost) := by
  refine ⟨⟨mkTerminal (processTrace env).outcome (processProject env).finalCost, ?_, ?_, ?_⟩, ?_, ?_, ?_⟩
  · rw [processProject_updates_shape]
    exact List.getLast?_concat _
  · exact mkTerminal_actualCost _ _
  · exact mkTerminal_status _ _
  · rw [processProject_updates_shape, List.dropLast_concat]
    exact processTrace_pre_actualCost env
  · exact processProject_finalCost_eq env
  · intro n
    have h := List.sum_take_add_sum_drop (processProject env).charges n
    have hf : (processProject env).finalCost = (processProject env).charges.sum := rfl
    omega

/-- C3: cost attribution is attempt-based — the flushed total is the sum of
the nominal costs of the attempted stages, so two runs that attempt the same
stage sequence are charged the same total no matter which of their calls
succeeded or threw. -/
theorem c3_cost_attempt_based (env₁ env₂ : PipelineEnv)
    (h : (processProject env₁).attempts = (processProject env₂).attempts) :
    (processProject env₁).finalCost = (processProject env₂).finalCost ∧
    (processProject env₁).finalCost =
      ((processProject env₁).attempts.map (fun c => stageCost c.stage)).sum := by
  refine ⟨?_, processProject_finalCost_eq env₁⟩
  rw [processProject_finalCost_eq, processProject_finalCost_eq, h]

/-- Witness for C3: a fully successful video run and one whose
video-generation submission is rejected attempt the same stages and are
charged the same 137 millicents. -/
theorem c3_cost_attempt_based_witness :
    (processProject exPipelineVideoEnv).attempts = (processProject exPipelineVideoFailEnv).attempts ∧
    ((processProject exPipelineVideoEnv).finalCost = (processProject exPipelineVideoFailEnv).finalCost ∧
     (processProject exPipelineVideoEnv).finalCost =
       ((processProject exPipelineVideoEnv).attempts.map (fun c => stageCost c.stage)).sum) :=
  ⟨by decide, c3_cost_attempt_based exPipelineVideoEnv exPipelineVideoFailEnv (by decide)⟩

/-- C5: an image-project run attempts exactly the prompt-enhancement and
image-composition calls — never the video-generation or audio adapters — its
terminal write flushes exactly the sum of the two Gemini charges, and no
write of the run ever sets `outputVideoUrl`. -/
theorem c5_image_run (env : PipelineEnv) (p : Project)
    (hp : env.getProject = some p) (hct : p.contentType = ContentType.image) :
    (processProject env).attempts =
      [ .enhancement (productPathOf p) (scenePathOf p) false,
        .imageGen (productPathOf p) (sceneImagePathOf p) ] ∧
    (processProject env).klingEvents = [] ∧
    (processProject env).finalCost = COSTS.GEMINI_PROMPT_ENHANCEMENT + COSTS.GEMINI_IMAGE_GENERATION ∧
    (∃ t, (processProject env).updates.getLast? = some t ∧
        t.actualCost = some (COSTS.GEMINI_PROMPT_ENHANCEMENT + COSTS.GEMINI_IMAGE_GENERATION)) ∧
    (∀ u ∈ (processProject env).updates, u.outputVideoUrl = none) := by
  unfold processProject processTrace
  rw [hp]
  cases hi : env.imageGen with
  | error e =>
    simp [attemptsHeaderOf, chargesHeader, preHeaderOf, mkTerminal, stageCost, hct,
      List.getLast?_concat, COSTS.GEMINI_PROMPT_ENHANCEMENT, COSTS.GEMINI_IMAGE_GENERATION]
  | ok img =>
    cases hc : env.cloudinaryUpload with
    | error e =>
      simp [attemptsHeaderOf, chargesHeader, preHeaderOf, mkTerminal, stageCost, hct,
        List.getLast?_concat, COSTS.GEMINI_PROMPT_ENHANCEMENT, COSTS.GEMINI_IMAGE_GENERATION]
    | ok imageUrl =>
      simp [attemptsHeaderOf, chargesHeader, preHeaderOf, mkTerminal, stageCost, hct,
        List.getLast?_concat, COSTS.GEMINI_PROMPT_ENHANCEMENT, COSTS.GEMINI_IMAGE_GENERATION]

/-- Witness for C5: a concrete successful image-project run. -/
theorem c5_image_run_witness :
    exPipelineImageEnv.getProject = some exImageProject ∧
    exImageProject.contentType = ContentType.image ∧
    ((processProject exPipelineImageEnv).attempts =
        [ .enhancement (productPathOf exImageProject) (scenePathOf exImageProject) false,
          .imageGen (productPathOf exImageProject) (sceneImagePathOf exImageProject) ] ∧
      (processProject exPipelineImageEnv).klingEvents = [] ∧
      (processProject exPipelineImageEnv).finalCost =
        COSTS.GEMINI_PROMPT_ENHANCEMENT + COSTS.GEMINI_IMAGE_GENERATION ∧
      (∃ t, (processProject exPipelineImageEnv).updates.getLast? = some t ∧
          t.actualCost = some (COSTS.GEMINI_PROMPT_ENHANCEMENT + COSTS.GEMINI_IMAGE_GENERATION)) ∧
      (∀ u ∈ (processProject exPipelineImageEnv).updates, u.outputVideoUrl = none)) :=
  ⟨rfl, rfl, c5_image_run exPipelineImageEnv exImageProject rfl rfl⟩

/-- Shape of a video run whose video-generation stage throws: the terminal
write is `failed` with the thrown message and the full 137-millicent cost,
and no write of the run sets `completed`. -/
theorem video_failure_terminal (env : PipelineEnv) (p : Project) (img : GeminiImage)
    (imageUrl e : String)
    (hp : env.getProject = some p) (hct : p.contentType = ContentType.video)
    (hi : env.imageGen = .ok img) (hc : env.cloudinaryUpload = .ok imageUrl)
    (hk : (klingResultOf env p imageUrl img).1 = .error e) :
    (processProject env).updates.getLast? =
      some { status := some ProjStatus.failed, errorMessage := some e,
             actualCost := some (COSTS.GEMINI_PROMPT_ENHANCEMENT + COSTS.GEMINI_IMAGE_GENERATION +
               COSTS.GEMINI_VIDEO_ANALYSIS + COSTS.VIDEO_GENERATION) } ∧
    (∀ u ∈ (processProject env).updates, u.status ≠ some ProjStatus.completed) := by
  unfold processProject processTrace
  rw [hp, hi, hc]
  simp only [hct]
  rw [hk]
  constructor
  · simp [preHeaderOf, mkTerminal, chargesHeader, stageCost, List.getLast?_concat,
      COSTS.GEMINI_PROMPT_ENHANCEMENT, COSTS.GEMINI_IMAGE_GENERATION,
      COSTS.GEMINI_VIDEO_ANALYSIS, COSTS.VIDEO_GENERATION]
  · simp [preHeaderOf, mkTerminal]

/-- Shape of a video run whose video-generation stage returns a result: the
run completes with the full cost flushed and the returned URL written at
progress 95. -/
theorem video_success_terminal (env : PipelineEnv) (p : Project) (img : GeminiImage)
    (imageUrl : String) (r : KlingVideoResult)
    (hp : env.getProject = some p) (hct : p.contentType = ContentType.video)
    (hi : env.imageGen = .ok img) (hc : env.cloudinaryUpload = .ok imageUrl)
    (hk : (klingResultOf env p imageUrl img).1 = .ok r) :
    (processProject env).updates.getLast? =
      some { status := some ProjStatus.completed, progress := some 100,
             actualCost := some (COSTS.GEMINI_PROMPT_ENHANCEMENT + COSTS.GEMINI_IMAGE_GENERATION +
               COSTS.GEMINI_VIDEO_ANALYSIS + COSTS.VIDEO_GENERATION) } ∧
    ({ outputVideoUrl := some r.url, progress := some 95 : Update } ∈ (processProject env).updates) := by
  unfold processProject processTrace
  rw [hp, hi, hc]
  simp only [hct]
  rw [hk]
  constructor
  · simp [preHeaderOf, mkTerminal, chargesHeader, stageCost, List.getLast?_concat,
      COSTS.GEMINI_PROMPT_ENHANCEMENT, COSTS.GEMINI_IMAGE_GENERATION,
      COSTS.GEMINI_VIDEO_ANALYSIS, COSTS.VIDEO_GENERATION]
  · simp [preHeaderOf, mkTerminal]

/-- A run of the PiAPI variant of `processProject` in which every stage
succeeds except video generation, which throws. -/
def c1LegacyEnv : LegacyEnv :=
  { getProject := some exVideoProject,
    enhanceCall := .ok ("enhanced image prompt"),
    videoEnhanceCall := .ok ("enhanced video prompt"),
    imageGen := .ok { base64 := "QkFTRTY0", mimeType := "image/png" },
    uploadUrlInfo := .ok ("u1/gen-1.png"),
    uploadPutOk := true,
    videoResult := .error ("Failed to generate video with PiAPI") }

/-- C1 (counterexample): in the PiAPI variant of `processProject`
(src/server/routes.ts), a run whose video-generation stage throws is still
marked `completed` — with the video charge flushed — and is never marked
`failed`, contradicting the claim that a VideoGenerator failure always ends
the run in `failed`. -/
theorem c1_counterexample :
    c1LegacyEnv.videoResult = Except.error ("Failed to generate video with PiAPI") ∧
    (processProjectLegacy c1LegacyEnv).updates.getLast? =
      some { status := some ProjStatus.completed, progress := some 100,
             actualCost := some (LegacyCOSTS.GEMINI_PROMPT_ENHANCEMENT +
               LegacyCOSTS.GEMINI_IMAGE_GENERATION + LegacyCOSTS.VIDEO_GENERATION) } ∧
    (∀ u ∈ (processProjectLegacy c1LegacyEnv).updates, u.status ≠ some ProjStatus.failed) := by
  refine ⟨rfl, by decide, by decide⟩

/-- C1 (amended): in the Kling variant of `processProject` (the pipeline the
rest of the spec describes), a video-generation failure is fatal: the run's
terminal write sets `failed` with the thrown message — which is never
empty — and flushes the accumulated cost including the video-generation
charge, and no write of the run ever sets `completed`. -/
theorem c1_video_failure_fatal (env : PipelineEnv) (p : Project) (img : GeminiImage)
    (imageUrl e : String)
    (hp : env.getProject = some p) (hct : p.contentType = ContentType.video)
    (hi : env.imageGen = .ok img) (hc : env.cloudinaryUpload = .ok imageUrl)
    (hk : (klingResultOf env p imageUrl img).1 = .error e) :
    (processProject env).updates.getLast? =
      some { status := some ProjStatus.failed, errorMessage := some e,
             actualCost := some (COSTS.GEMINI_PROMPT_ENHANCEMENT + COSTS.GEMINI_IMAGE_GENERATION +
               COSTS.GEMINI_VIDEO_ANALYSIS + COSTS.VIDEO_GENERATION) } ∧
    e ≠ "" ∧
    (∀ u ∈ (processProject env).updates, u.status ≠ some ProjStatus.completed) := by
  have hshape := generateVideoWithKling_error_shape env.kling imageUrl (finalVideoPromptOf env p img)
    (jsOrNat p.videoDurationSeconds 10) false false e (by unfold klingResultOf at hk; exact hk)
  have hterm := video_failure_terminal env p img imageUrl e hp hct hi hc hk
  exact ⟨hterm.1, hshape.2, hterm.2⟩

/-- Witness for C1's amended theorem: a concrete video run whose Kling
submission is rejected ends `failed` with the wrapped error message and a
137-millicent flush. -/
theorem c1_video_failure_fatal_witness :
    exPipelineVideoFailEnv.getProject = some exVideoProject ∧
    exVideoProject.contentType = ContentType.video ∧
    exPipelineVideoFailEnv.imageGen = Except.ok { base64 := "QkFTRTY0", mimeType := "image/png" } ∧
    exPipelineVideoFailEnv.cloudinaryUpload =
      Except.ok ("https://res.cloudinary.com/demo/cgi-generated/gen-1.png") ∧
    ((processProject exPipelineVideoFailEnv).updates.getLast? =
      some { status := some ProjStatus.failed,
             errorMessage := some ("Kling AI video generation failed: Kling AI API error: 500 - kling rejected"),
             actualCost := some (COSTS.GEMINI_PROMPT_ENHANCEMENT + COSTS.GEMINI_IMAGE_GENERATION +
               COSTS.GEMINI_VIDEO_ANALYSIS + COSTS.VIDEO_GENERATION) } ∧
      ("Kling AI video generation failed: Kling AI API error: 500 - kling rejected" : String) ≠ "" ∧
      (∀ u ∈ (processProject exPipelineVideoFailEnv).updates, u.status ≠ some ProjStatus.completed)) :=
  ⟨rfl, rfl, rfl, rfl,
    c1_video_failure_fatal exPipelineVideoFailEnv exVideoProject
      { base64 := "QkFTRTY0", mimeType := "image/png" }
      ("https://res.cloudinary.com/demo/cgi-generated/gen-1.png")
      ("Kling AI video generation failed: Kling AI API error: 500 - kling rejected")
      rfl rfl rfl rfl rfl⟩

/-- No event of `addAudioToVideo` is the video-task checkpoint write. -/
theorem addAudioToVideo_events_not_checkpoint (aenv : AudioEnv) (t p : String) (h : Bool) :
    ∀ ev ∈ (addAudioToVideo aenv t p h).2, ev.isCheckpoint = false := by
  intro ev hev
  unfold addAudioToVideo at hev
  split at hev
  · simp at hev
  · split at hev
    · simp at hev
    · cases h with
      | false =>
        simp only [Bool.false_eq_true, if_false, List.nil_append, List.mem_map] at hev
        obtain ⟨i, _, rfl⟩ := hev
        rfl
      | true =>
        simp only [if_true, List.cons_append, List.nil_append, List.mem_cons, List.mem_map] at hev
        rcases hev with rfl | ⟨i, _, rfl⟩ <;> rfl

/-- C4 (counterexample): in a concrete successful video run of the pipeline,
the Kling task id is extracted (`vid-task-1`) and polling happens
(`statusCheck 1`), yet no checkpoint write ever occurs and no update of the
run carries `klingVideoTaskId` — because the orchestrator does not pass
`projectId`/`storage` to `generateVideoWithKling`. -/
theorem c4_counterexample :
    jsTruthy (extractTaskId exKlingOkEnv.submitResp) = some ("vid-task-1") ∧
    (processProject exPipelineVideoEnv).klingEvents = [KlingEvent.statusCheck 1] ∧
    ((processProject exPipelineVideoEnv).klingEvents.filter KlingEvent.isCheckpoint) = [] ∧
    (∀ u ∈ (processProject exPipelineVideoEnv).updates, u.klingVideoTaskId = none) := by
  refine ⟨rfl, by decide, by decide, by decide⟩

/-- C4 (amended): when `generateVideoWithKling` IS given the recovery hooks,
the checkpoint write of the extracted task id happens before every status
check (it is the first recorded event and nothing after it is a video
checkpoint), and the write is best-effort: whether it fails or succeeds does
not change the call's result.  The pipeline itself, however, invokes the
adapter without the hooks, so no checkpoint is persisted in its runs (see
the counterexample). -/
theorem c4_checkpoint_best_effort (env : KlingEnv) (imageUrl prompt : String) (d : Nat)
    (includeAudio : Bool) (taskId : String)
    (hne : imageUrl ≠ "")
    (hhttp : strStartsWith imageUrl ("http://") = true ∨ strStartsWith imageUrl ("https://") = true)
    (h9j : strStartsWith imageUrl ("/9j/") = false)
    (hlen : imageUrl.length ≤ 1000)
    (hkey : env.apiKeyPresent = true)
    (hsub : env.submitHttpOk = true)
    (hid : jsTruthy (extractTaskId env.submitResp) = some taskId) :
    (∃ rest, (generateVideoWithKling env imageUrl prompt d includeAudio true).2 =
        KlingEvent.checkpointWrite taskId (¬ env.checkpointWriteFails) :: rest ∧
        ∀ ev ∈ rest, ev.isCheckpoint = false) ∧
    (generateVideoWithKling { env with checkpointWriteFails := true } imageUrl prompt d includeAudio true).1 =
      (generateVideoWithKling { env with checkpointWriteFails := false } imageUrl prompt d includeAudio true).1 := by
  constructor
  · unfold generateVideoWithKling
    rw [generateVideoWithKlingInner_submitted env imageUrl prompt d includeAudio true taskId
      hne hhttp h9j hlen hkey hsub hid]
    have hnotck : ∀ ev ∈ (List.range (klingVideoPoll env.poll maxAttemptsVideo 0).2).map
        (fun i => KlingEvent.statusCheck (i + 1)), ev.isCheckpoint = false := by
      intro ev hev
      simp only [List.mem_map] at hev
      obtain ⟨i, _, rfl⟩ := hev
      rfl
    cases hout : (klingVideoPoll env.poll maxAttemptsVideo 0).1 with
    | failure m => exact ⟨_, by simp, hnotck⟩
    | timedOut => exact ⟨_, by simp, hnotck⟩
    | done u =>
      cases includeAudio with
      | false => exact ⟨_, by simp, hnotck⟩
      | true =>
        cases haud : (addAudioToVideo env.audio taskId prompt true).1 with
        | ok au =>
          refine ⟨(List.range (klingVideoPoll env.poll maxAttemptsVideo 0).2).map
              (fun i => KlingEvent.statusCheck (i + 1)) ++
              (addAudioToVideo env.audio taskId prompt true).2, by simp, ?_⟩
          intro ev hev
          rcases List.mem_append.mp hev with hev | hev
          · exact hnotck ev hev
          · exact addAudioToVideo_events_not_checkpoint env.audio taskId prompt true ev hev
        | error am =>
          refine ⟨(List.range (klingVideoPoll env.poll maxAttemptsVideo 0).2).map
              (fun i => KlingEvent.statusCheck (i + 1)) ++
              (addAudioToVideo env.audio taskId prompt true).2, by simp, ?_⟩
          intro ev hev
          rcases List.mem_append.mp hev with hev | hev
          · exact hnotck ev hev
          · exact addAudioToVideo_events_not_checkpoint env.audio taskId prompt true ev hev
  · unfold generateVideoWithKling
    rw [generateVideoWithKlingInner_submitted { env with checkpointWriteFails := true }
      imageUrl prompt d includeAudio true taskId hne hhttp h9j hlen hkey hsub hid]
    rw [generateVideoWithKlingInner_submitted { env with checkpointWriteFails := false }
      imageUrl prompt d includeAudio true taskId hne hhttp h9j hlen hkey hsub hid]
    dsimp only
    cases hout : (klingVideoPoll env.poll maxAttemptsVideo 0).1 with
    | failure m => simp
    | timedOut => simp
    | done u =>
      cases includeAudio with
      | false => simp
      | true =>
        cases haud : (addAudioToVideo env.audio taskId prompt true).1 with
        | ok au => simp [haud]
        | error am => simp [haud]

/-- Witness for C4's amended theorem: a concrete Kling call with recovery
hooks checkpoints `vid-task-1` first and its result is unchanged when the
checkpoint write fails. -/
theorem c4_checkpoint_best_effort_witness :
    (("https://cdn.example.com/frame.png" : String) ≠ "" ∧
     strStartsWith ("https://cdn.example.com/frame.png") ("https://") = true ∧
     exKlingOkEnv.apiKeyPresent = true ∧
     exKlingOkEnv.submitHttpOk = true ∧
     jsTruthy (extractTaskId exKlingOkEnv.submitResp) = some ("vid-task-1")) ∧
    ((∃ rest, (generateVideoWithKling exKlingOkEnv ("https://cdn.example.com/frame.png") ("p") 10 false true).2 =
        KlingEvent.checkpointWrite ("vid-task-1") (¬ exKlingOkEnv.checkpointWriteFails) :: rest ∧
        ∀ ev ∈ rest, ev.isCheckpoint = false) ∧
     (generateVideoWithKling { exKlingOkEnv with checkpointWriteFails := true }
        ("https://cdn.example.com/frame.png") ("p") 10 false true).1 =
       (generateVideoWithKling { exKlingOkEnv with checkpointWriteFails := false }
        ("https://cdn.example.com/frame.png") ("p") 10 false true).1) :=
  ⟨⟨by decide, by decide, rfl, rfl, rfl⟩,
    c4_checkpoint_best_effort exKlingOkEnv ("https://cdn.example.com/frame.png") ("p") 10 false
      ("vid-task-1") (by decide) (Or.inr (by decide)) (by decide) (by decide) rfl rfl rfl⟩

/-- C6: when the prompt-enhancement call fails, the adapter returns the
deterministic fallback — a non-empty string that embeds the user's
description — instead of propagating; every run that finds its project
reaches the `generating_image` transition, an image run with a failing
enhancement stores exactly the fallback prompt at progress 50, and the
run's outcome never depends on the enhancement calls at all. -/
theorem c6_enhancement_graceful_fallback
    (e productPath scenePath userDescription : String)
    (env : PipelineEnv) (p : Project) (c₁ c₂ : Except String String)
    (hp : env.getProject = some p) :
    enhancePromptWithGemini (Except.error e) productPath scenePath userDescription =
      fallbackEnhancedPrompt userDescription ∧
    fallbackEnhancedPrompt userDescription ≠ "" ∧
    strContains (fallbackEnhancedPrompt userDescription) userDescription = true ∧
    ({ status := some ProjStatus.generating_image, progress := some 60 : Update } ∈
      (processProject env).updates) ∧
    (p.contentType = ContentType.image → env.enhanceCall = Except.error e →
      { enhancedPrompt := some (fallbackEnhancedPrompt (jsOrStr p.description ("CGI image generation"))),
        progress := some 50 : Update } ∈ (processProject env).updates) ∧
    (processTrace { env with enhanceCall := c₁, videoEnhanceCall := c₂ }).outcome =
      (processTrace env).outcome := by
  have hmem : { status := some ProjStatus.generating_image, progress := some 60 : Update } ∈
      (processProject env).updates := by
    unfold processProject processTrace
    rw [hp]
    cases hi : env.imageGen with
    | error _ => simp [preHeaderOf]
    | ok img =>
      cases hc : env.cloudinaryUpload with
      | error _ => simp [preHeaderOf]
      | ok imageUrl =>
        cases hct : p.contentType with
        | image => simp [hct, preHeaderOf]
        | video =>
          cases hk : (klingResultOf env p imageUrl img).1 with
          | ok r => simp [hct, hk, preHeaderOf]
          | error _ => simp [hct, hk, preHeaderOf]
  refine ⟨rfl, append_left_ne_empty _ _ (by decide), strContains_append_self _ _, hmem, ?_, ?_⟩
  · intro hct henh
    have hprompt : enhancedPromptOf env p =
        fallbackEnhancedPrompt (jsOrStr p.description ("CGI image generation")) := by
      unfold enhancedPromptOf
      rw [hct, henh]
      rfl
    unfold processProject processTrace
    rw [hp]
    cases hi : env.imageGen with
    | error _ => simp [preHeaderOf, hprompt]
    | ok img =>
      cases hc : env.cloudinaryUpload with
      | error _ => simp [preHeaderOf, hprompt]
      | ok imageUrl => simp [hct, preHeaderOf, hprompt]
  · have hkr : klingResultOf { env with enhanceCall := c₁, videoEnhanceCall := c₂ } = klingResultOf env := rfl
    unfold processTrace
    dsimp only
    rw [hkr, hp]
    cases hi : env.imageGen with
    | error _ => rfl
    | ok img =>
      cases hc : env.cloudinaryUpload with
      | error _ => rfl
      | ok imageUrl =>
        cases hct : p.contentType with
        | image => simp [hct]
        | video =>
          cases hk : (klingResultOf env p imageUrl img).1 with
          | ok r => simp [hct, hk]
          | error _ => simp [hct, hk]

/-- Witness for C6: a concrete image run whose enhancement call fails still
reaches `generating_image` with the non-empty fallback prompt stored. -/
theorem c6_enhancement_graceful_fallback_witness :
    exPipelineImageFallbackEnv.getProject = some exImageProject ∧
    (enhancePromptWithGemini (Except.error ("gemini unavailable")) ("u1/product.png") ("u1/scene.png")
        ("place the bottle on the shelf") = fallbackEnhancedPrompt ("place the bottle on the shelf") ∧
      fallbackEnhancedPrompt ("place the bottle on the shelf") ≠ "" ∧
      strContains (fallbackEnhancedPrompt ("place the bottle on the shelf"))
        ("place the bottle on the shelf") = true ∧
      ({ status := some ProjStatus.generating_image, progress := some 60 : Update } ∈
        (processProject exPipelineImageFallbackEnv).updates) ∧
      (exImageProject.contentType = ContentType.image →
        exPipelineImageFallbackEnv.enhanceCall = Except.error ("gemini unavailable") →
        { enhancedPrompt := some (fallbackEnhancedPrompt
            (jsOrStr exImageProject.description ("CGI image generation"))),
          progress := some 50 : Update } ∈ (processProject exPipelineImageFallbackEnv).updates) ∧
      (processTrace { exPipelineImageFallbackEnv with
          enhanceCall := Except.error ("down"), videoEnhanceCall := Except.ok ("x") }).outcome =
        (processTrace exPipelineImageFallbackEnv).outcome) :=
  ⟨rfl, c6_enhancement_graceful_fallback ("gemini unavailable") ("u1/product.png") ("u1/scene.png")
    ("place the bottle on the shelf") exPipelineImageFallbackEnv exImageProject
    (Except.error ("down")) (Except.ok ("x")) rfl⟩

/-- C7: if the video job completes with a (silent) URL and the
audio-augmentation step then throws, `generateVideoWithKling` still returns
success carrying the silent URL; and any pipeline run whose video stage
returns success terminates `completed` with the returned URL persisted as
`outputVideoUrl` — so an audio failure never fails the run and the silent
video is what gets stored. -/
theorem c7_audio_failure_nonfatal
    (kenv : KlingEnv) (imageUrl prompt : String) (d : Nat) (hooks : Bool)
    (taskId u am : String) (n : Nat)
    (hne : imageUrl ≠ "")
    (hhttp : strStartsWith imageUrl ("http://") = true ∨ strStartsWith imageUrl ("https://") = true)
    (h9j : strStartsWith imageUrl ("/9j/") = false)
    (hlen : imageUrl.length ≤ 1000)
    (hkey : kenv.apiKeyPresent = true)
    (hsub : kenv.submitHttpOk = true)
    (hid : jsTruthy (extractTaskId kenv.submitResp) = some taskId)
    (hpoll : klingVideoPoll kenv.poll maxAttemptsVideo 0 = (.done u, n))
    (haud : (addAudioToVideo kenv.audio taskId prompt hooks).1 = .error am) :
    (generateVideoWithKling kenv imageUrl prompt d true hooks).1 = .ok { url := u, duration := d } ∧
    (∀ (env : PipelineEnv) (p : Project) (img : GeminiImage) (iu : String) (r : KlingVideoResult),
      env.getProject = some p → p.contentType = ContentType.video → env.imageGen = .ok img →
      env.cloudinaryUpload = .ok iu → (klingResultOf env p iu img).1 = .ok r →
      (processProject env).updates.getLast? =
        some { status := some ProjStatus.completed, progress := some 100,
               actualCost := some (COSTS.GEMINI_PROMPT_ENHANCEMENT + COSTS.GEMINI_IMAGE_GENERATION +
                 COSTS.GEMINI_VIDEO_ANALYSIS + COSTS.VIDEO_GENERATION) } ∧
      ({ outputVideoUrl := some r.url, progress := some 95 : Update } ∈ (processProject env).updates)) := by
  constructor
  · unfold generateVideoWithKling
    rw [generateVideoWithKlingInner_submitted kenv imageUrl prompt d true hooks taskId
      hne hhttp h9j hlen hkey hsub hid]
    rw [hpoll, haud]
    simp
  · intro env p img iu r hp hct hi hc hk
    exact video_success_terminal env p img iu r hp hct hi hc hk

/-- Witness for C7: a concrete Kling call whose audio submission is rejected
still returns the silent URL, and the concrete successful pipeline run
completes with that URL persisted. -/
theorem c7_audio_failure_nonfatal_witness :
    klingVideoPoll exKlingOkEnv.poll maxAttemptsVideo 0 =
      (PollOutcome.done ("https://cdn.example.com/video-silent.mp4"), 1) ∧
    (addAudioToVideo exKlingOkEnv.audio ("vid-task-1") ("p") false).1 =
      Except.error ("Kling Sound API error: 500 - audio backend down") ∧
    ((generateVideoWithKling exKlingOkEnv ("https://cdn.example.com/frame.png") ("p") 10 true false).1 =
        Except.ok { url := "https://cdn.example.com/video-silent.mp4", duration := 10 } ∧
      (∀ (env : PipelineEnv) (p : Project) (img : GeminiImage) (iu : String) (r : KlingVideoResult),
        env.getProject = some p → p.contentType = ContentType.video → env.imageGen = .ok img →
        env.cloudinaryUpload = .ok iu → (klingResultOf env p iu img).1 = .ok r →
        (processProject env).updates.getLast? =
          some { status := some ProjStatus.completed, progress := some 100,
                 actualCost := some (COSTS.GEMINI_PROMPT_ENHANCEMENT + COSTS.GEMINI_IMAGE_GENERATION +
                   COSTS.GEMINI_VIDEO_ANALYSIS + COSTS.VIDEO_GENERATION) } ∧
        ({ outputVideoUrl := some r.url, progress := some 95 : Update } ∈ (processProject env).updates))) :=
  ⟨rfl, rfl,
    c7_audio_failure_nonfatal exKlingOkEnv ("https://cdn.example.com/frame.png") ("p") 10 false
      ("vid-task-1") ("https://cdn.example.com/video-silent.mp4")
      ("Kling Sound API error: 500 - audio backend down") 1
      (by decide) (Or.inr (by decide)) (by decide) (by decide) rfl rfl rfl rfl rfl⟩

/-- The message `generateVideoWithKling` fails with on a polling timeout. -/
def klingVideoTimeoutMsg : String :=
  "Kling AI video generation failed: Kling AI video generation timed out after 600 seconds"

/-- The message `addAudioToVideo` fails with on a polling timeout. -/
def klingSoundTimeoutMsg : String :=
  "Kling Sound generation timed out after 300 seconds"

/-- A forever-processing task times out the whole Kling video call with the
timeout message. -/
theorem generateVideoWithKling_timeout (kenv : KlingEnv) (imageUrl prompt : String)
    (d : Nat) (a hooks : Bool) (taskId : String)
    (hne : imageUrl ≠ "")
    (hhttp : strStartsWith imageUrl ("http://") = true ∨ strStartsWith imageUrl ("https://") = true)
    (h9j : strStartsWith imageUrl ("/9j/") = false)
    (hlen : imageUrl.length ≤ 1000)
    (hkey : kenv.apiKeyPresent = true)
    (hsub : kenv.submitHttpOk = true)
    (hid : jsTruthy (extractTaskId kenv.submitResp) = some taskId)
    (hstill : ∀ i, isStillRunning (kenv.poll i)) :
    (generateVideoWithKling kenv imageUrl prompt d a hooks).1 = .error klingVideoTimeoutMsg := by
  unfold generateVideoWithKling
  rw [generateVideoWithKlingInner_submitted kenv imageUrl prompt d a hooks taskId
    hne hhttp h9j hlen hkey hsub hid]
  rw [klingVideoPoll_still kenv.poll hstill maxAttemptsVideo 0]
  simp only []
  rw [show klingVideoTimeoutMsg =
    "Kling AI video generation failed: " ++
      ("Kling AI video generation timed out after " ++ toString (maxAttemptsVideo * 10) ++ " seconds") from by decide]

/-- A forever-processing audio task times out `addAudioToVideo` with the
sound timeout message. -/
theorem addAudioToVideo_timeout (aenv : AudioEnv) (t pr : String) (hooks : Bool) (tid : String)
    (hsub : aenv.submitHttpOk = true)
    (hid : jsTruthy (extractTaskId aenv.submitResp) = some tid)
    (hstill : ∀ i, isStillRunning (aenv.poll i)) :
    (addAudioToVideo aenv t pr hooks).1 = .error klingSoundTimeoutMsg := by
  unfold addAudioToVideo
  rw [if_neg (by simp [hsub])]
  rw [hid]
  rw [klingAudioPoll_still aenv.poll hstill maxAttemptsAudio 0]
  simp only []
  rw [show klingSoundTimeoutMsg =
    "Kling Sound generation timed out after " ++ toString (maxAttemptsAudio * 10) ++ " seconds" from by decide]

/-- A PiAPI polling response that reports a still-processing status. -/
def isStillRunningPi : PiAPIPollResp → Prop
  | .httpErr _ => False
  | .httpOk s _ => s = "processing"

/-- A task that keeps reporting `processing` makes the PiAPI poll loop run
its full fuel and time out. -/
theorem piapiPollLoop_still (poll : Nat → PiAPIPollResp)
    (h : ∀ i, isStillRunningPi (poll i)) :
    ∀ fuel attempts, piapiPollLoop poll fuel attempts = (.timedOut, attempts + fuel) := by
  intro fuel
  induction fuel with
  | zero => intro attempts; simp [piapiPollLoop]
  | succ n ih =>
    intro attempts
    have hs := h (attempts + 1)
    rw [piapiPollLoop]
    cases hr : poll (attempts + 1) with
    | httpErr st => rw [hr] at hs; exact absurd hs id
    | httpOk s out =>
      rw [hr] at hs
      obtain rfl : s = "processing" := hs
      simp only [String.reduceEq, false_and, if_false, reduceIte]
      rw [ih (attempts + 1)]
      exact congrArg _ (by omega)

/-- The PiAPI poll loop never performs more status checks than its fuel
allows. -/
theorem piapiPollLoop_count_le (poll : Nat → PiAPIPollResp) :
    ∀ fuel attempts, (piapiPollLoop poll fuel attempts).2 ≤ attempts + fuel := by
  intro fuel
  induction fuel with
  | zero => intro attempts; simp [piapiPollLoop]
  | succ n ih =>
    intro attempts
    rw [piapiPollLoop]
    cases poll (attempts + 1) with
    | httpErr st => dsimp only; omega
    | httpOk s out =>
      repeat' split
      all_goals first
        | exact le_trans (ih (attempts + 1)) (by omega)
        | (dsimp only; omega)

/-- A forever-processing task times out `generateVideoWithPiAPI`, but the
outer catch replaces the inner `Video generation timeout` message with the
generic `Failed to generate video with PiAPI`. -/
theorem generateVideoWithPiAPI_timeout (penv : PiAPIEnv) (url : String)
    (hsub : penv.submitHttpOk = true)
    (hstill : ∀ i, isStillRunningPi (penv.poll i)) :
    generateVideoWithPiAPI penv url = (.error ("Failed to generate video with PiAPI"), true) := by
  unfold generateVideoWithPiAPI
  rw [if_neg (by simp [hsub])]
  rw [piapiPollLoop_still penv.poll hstill 60 0]

/-- C8 (amended): the Kling loops behave as the claim states — both always
terminate within their `maxAttempts` bound (60 video / 30 audio checks), a
task that reports still-processing on every attempt makes each loop perform
exactly its maximum of checks and fail with a timeout message that mentions
timing out, and a Kling-pipeline run whose video task polls forever
transitions to `failed` with that timeout message persisted.  The PiAPI
loop (`generateVideoWithPiAPI`, also cited by the claim) likewise performs
at most 60 checks and times out, but its outer catch replaces the timeout
message with the generic `Failed to generate video with PiAPI`, which does
not mention timing out — and its caller in routes.ts swallows the failure
and completes the run (see the counterexample). -/
theorem c8_polling_timeout :
    (∀ poll : Nat → KlingPollResp, (∀ i, isStillRunning (poll i)) →
        klingVideoPoll poll maxAttemptsVideo 0 = (PollOutcome.timedOut, 60) ∧
        klingAudioPoll poll maxAttemptsAudio 0 = (PollOutcome.timedOut, 30)) ∧
    (∀ (poll : Nat → KlingPollResp) (fuel attempts : Nat),
        (klingVideoPoll poll fuel attempts).2 ≤ attempts + fuel ∧
        (klingAudioPoll poll fuel attempts).2 ≤ attempts + fuel) ∧
    strContains klingVideoTimeoutMsg ("timed out") = true ∧
    strContains klingSoundTimeoutMsg ("timed out") = true ∧
    (∀ (kenv : KlingEnv) (imageUrl prompt : String) (d : Nat) (a hooks : Bool) (taskId : String),
        imageUrl ≠ "" →
        (strStartsWith imageUrl ("http://") = true ∨ strStartsWith imageUrl ("https://") = true) →
        strStartsWith imageUrl ("/9j/") = false →
        imageUrl.length ≤ 1000 →
        kenv.apiKeyPresent = true → kenv.submitHttpOk = true →
        jsTruthy (extractTaskId kenv.submitResp) = some taskId →
        (∀ i, isStillRunning (kenv.poll i)) →
        (generateVideoWithKling kenv imageUrl prompt d a hooks).1 = .error klingVideoTimeoutMsg) ∧
    (∀ (aenv : AudioEnv) (t pr : String) (hooks : Bool) (tid : String),
        aenv.submitHttpOk = true →
        jsTruthy (extractTaskId aenv.submitResp) = some tid →
        (∀ i, isStillRunning (aenv.poll i)) →
        (addAudioToVideo aenv t pr hooks).1 = .error klingSoundTimeoutMsg) ∧
    (∀ (env : PipelineEnv) (p : Project) (img : GeminiImage) (iu taskId : String),
        env.getProject = some p → p.contentType = ContentType.video →
        env.imageGen = .ok img → env.cloudinaryUpload = .ok iu →
        iu ≠ "" → (strStartsWith iu ("http://") = true ∨ strStartsWith iu ("https://") = true) →
        strStartsWith iu ("/9j/") = false → iu.length ≤ 1000 →
        env.kling.apiKeyPresent = true → env.kling.submitHttpOk = true →
        jsTruthy (extractTaskId env.kling.submitResp) = some taskId →
        (∀ i, isStillRunning (env.kling.poll i)) →
        (processProject env).updates.getLast? =
          some { status := some ProjStatus.failed, errorMessage := some klingVideoTimeoutMsg,
                 actualCost := some (COSTS.GEMINI_PROMPT_ENHANCEMENT + COSTS.GEMINI_IMAGE_GENERATION +
                   COSTS.GEMINI_VIDEO_ANALYSIS + COSTS.VIDEO_GENERATION) }) ∧
    (∀ (poll : Nat → PiAPIPollResp) (fuel attempts : Nat),
        (piapiPollLoop poll fuel attempts).2 ≤ attempts + fuel) ∧
    (∀ poll : Nat → PiAPIPollResp, (∀ i, isStillRunningPi (poll i)) →
        piapiPollLoop poll 60 0 = (PollOutcome.timedOut, 60)) ∧
    (∀ (penv : PiAPIEnv) (url : String), penv.submitHttpOk = true →
        (∀ i, isStillRunningPi (penv.poll i)) →
        generateVideoWithPiAPI penv url =
          (.error ("Failed to generate video with PiAPI"), true) ∧
        strContains ("Failed to generate video with PiAPI") ("timed out") = false) := by
  refine ⟨?_, ?_, by decide, by decide, ?_, ?_, ?_, ?_, ?_, ?_⟩
  · intro poll h
    constructor
    · simpa using klingVideoPoll_still poll h maxAttemptsVideo 0
    · simpa using klingAudioPoll_still poll h maxAttemptsAudio 0
  · intro poll fuel attempts
    exact ⟨klingVideoPoll_count_le poll fuel attempts, klingAudioPoll_count_le poll fuel attempts⟩
  · intro kenv imageUrl prompt d a hooks taskId hne hhttp h9j hlen hkey hsub hid hstill
    exact generateVideoWithKling_timeout kenv imageUrl prompt d a hooks taskId
      hne hhttp h9j hlen hkey hsub hid hstill
  · intro aenv t pr hooks tid hsub hid hstill
    exact addAudioToVideo_timeout aenv t pr hooks tid hsub hid hstill
  · intro env p img iu taskId hp hct hi hc hne hhttp h9j hlen hkey hsub hid hstill
    have hk : (klingResultOf env p iu img).1 = .error klingVideoTimeoutMsg := by
      unfold klingResultOf
      exact generateVideoWithKling_timeout env.kling iu (finalVideoPromptOf env p img)
        (jsOrNat p.videoDurationSeconds 10) false false taskId hne hhttp h9j hlen hkey hsub hid hstill
    exact (video_failure_terminal env p img iu klingVideoTimeoutMsg hp hct hi hc hk).1
  · intro poll fuel attempts
    exact piapiPollLoop_count_le poll fuel attempts
  · intro poll h
    simpa using piapiPollLoop_still poll h 60 0
  · intro penv url hsub hstill
    exact ⟨generateVideoWithPiAPI_timeout penv url hsub hstill, by decide⟩

/-- A PiAPI environment whose submission succeeds and whose task reports
`processing` on every status check. -/
def c8PiStillEnv : PiAPIEnv :=
  { submitHttpOk := true, submitHttpStatus := 200, submitId := some ("job-1"),
    poll := fun _ => .httpOk ("processing") [] }

/-- A run of the PiAPI variant of `processProject` whose video stage is the
outcome of `generateVideoWithPiAPI` on the forever-processing task. -/
def c8LegacyStillEnv : LegacyEnv :=
  { getProject := some exVideoProject,
    enhanceCall := .ok ("enhanced image prompt"),
    videoEnhanceCall := .ok ("enhanced video prompt"),
    imageGen := .ok { base64 := "QkFTRTY0", mimeType := "image/png" },
    uploadUrlInfo := .ok ("u1/gen-2.png"),
    uploadPutOk := true,
    videoResult :=
      (generateVideoWithPiAPI c8PiStillEnv ("https://cdn.example.com/gen.png")).1.map
        (fun r => r.url) }

/-- Witness for C8's amended theorem: the concrete forever-processing Kling
run times out after 60 checks and ends `failed` with the timeout message,
and the concrete forever-processing PiAPI call fails with the generic
message that does not mention timing out. -/
theorem c8_polling_timeout_witness :
    (∀ i, isStillRunning (exPipelineVideoStillEnv.kling.poll i)) ∧
    klingVideoPoll exKlingStillEnv.poll maxAttemptsVideo 0 = (PollOutcome.timedOut, 60) ∧
    (processProject exPipelineVideoStillEnv).updates.getLast? =
      some { status := some ProjStatus.failed, errorMessage := some klingVideoTimeoutMsg,
             actualCost := some (COSTS.GEMINI_PROMPT_ENHANCEMENT + COSTS.GEMINI_IMAGE_GENERATION +
               COSTS.GEMINI_VIDEO_ANALYSIS + COSTS.VIDEO_GENERATION) } ∧
    c8PiStillEnv.submitHttpOk = true ∧
    (∀ i, isStillRunningPi (c8PiStillEnv.poll i)) ∧
    (generateVideoWithPiAPI c8PiStillEnv ("https://cdn.example.com/gen.png") =
        (.error ("Failed to generate video with PiAPI"), true) ∧
      strContains ("Failed to generate video with PiAPI") ("timed out") = false) :=
  ⟨fun _ => Or.inl rfl,
   (c8_polling_timeout.1 exKlingStillEnv.poll (fun _ => Or.inl rfl)).1,
   c8_polling_timeout.2.2.2.2.2.2.1 exPipelineVideoStillEnv exVideoProject
     { base64 := "QkFTRTY0", mimeType := "image/png" }
     ("https://res.cloudinary.com/demo/cgi-generated/gen-1.png") ("vid-task-1")
     rfl rfl rfl rfl (by decide) (Or.inr (by decide)) (by decide) (by decide)
     rfl rfl rfl (fun _ => Or.inl rfl),
   rfl,
   fun _ => rfl,
   c8_polling_timeout.2.2.2.2.2.2.2.2.2 c8PiStillEnv ("https://cdn.example.com/gen.png")
     rfl (fun _ => rfl)⟩

/-- C8 (counterexample): for the cited PiAPI loop the claim fails.  With a
task that reports `processing` on every attempt, `generateVideoWithPiAPI`
does time out internally, but the error it surfaces is the generic
`Failed to generate video with PiAPI`, which mentions neither `timed out`
nor `timeout`; and the routes.ts pipeline that calls it swallows the
failure: its run ends `completed` with no `errorMessage` and never touches
`failed` — not `failed` with a timeout message as the claim states. -/
theorem c8_counterexample :
    c8PiStillEnv.poll = (fun _ => PiAPIPollResp.httpOk ("processing") []) ∧
    generateVideoWithPiAPI c8PiStillEnv ("https://cdn.example.com/gen.png") =
      (Except.error ("Failed to generate video with PiAPI"), true) ∧
    strContains ("Failed to generate video with PiAPI") ("timed out") = false ∧
    strContains ("Failed to generate video with PiAPI") ("timeout") = false ∧
    c8LegacyStillEnv.videoResult = Except.error ("Failed to generate video with PiAPI") ∧
    (processProjectLegacy c8LegacyStillEnv).updates.getLast? =
      some { status := some ProjStatus.completed, progress := some 100,
             actualCost := some (LegacyCOSTS.GEMINI_PROMPT_ENHANCEMENT +
               LegacyCOSTS.GEMINI_IMAGE_GENERATION + LegacyCOSTS.VIDEO_GENERATION) } ∧
    (∀ u ∈ (processProjectLegacy c8LegacyStillEnv).updates,
      u.status ≠ some ProjStatus.failed ∧ u.errorMessage = none) :=
  ⟨rfl, rfl, by decide, by decide, rfl, by decide, by decide⟩

/-- A PiAPI environment whose submission returns HTTP 200 with a body that
carries no job identifier, and whose first status poll reports completion. -/
def c9PiEnv : PiAPIEnv :=
  { submitHttpOk := true, submitHttpStatus := 200, submitId := none,
    poll := fun _ => .httpOk ("completed") ["https://cdn.example.com/legacy-video.mp4"] }

/-- C9 (counterexample): `generateVideoWithPiAPI` extracts `job.id` without
validation — with a 200 submission response carrying no identifier it still
proceeds to the polling phase (second component `true`) and even returns a
successful result, so a 200-with-no-task-id submission IS treated as
success there. -/
theorem c9_counterexample :
    c9PiEnv.submitHttpOk = true ∧ c9PiEnv.submitId = none ∧
    generateVideoWithPiAPI c9PiEnv ("https://cdn.example.com/gen.png") =
      (Except.ok { url := "https://cdn.example.com/legacy-video.mp4", duration := 5 }, true) :=
  ⟨rfl, rfl, rfl⟩

/-- C9 (amended): the Kling submissions (video generation and sound) do
reject a successful HTTP response with no extractable task identifier —
in neither the wrapped `data.task_id` form nor the direct `task_id` form —
failing with a reported `No task_id returned` error and performing no
status checks; the PiAPI submission in `generateVideoWithPiAPI`, however,
checks only the HTTP status (see the counterexample). -/
theorem c9_no_task_id_rejected (kenv : KlingEnv) (aenv : AudioEnv)
    (imageUrl prompt t : String) (d : Nat) (a hooks : Bool)
    (hne : imageUrl ≠ "")
    (hhttp : strStartsWith imageUrl ("http://") = true ∨ strStartsWith imageUrl ("https://") = true)
    (h9j : strStartsWith imageUrl ("/9j/") = false)
    (hlen : imageUrl.length ≤ 1000)
    (hkey : kenv.apiKeyPresent = true)
    (hsub : kenv.submitHttpOk = true)
    (hid : jsTruthy (extractTaskId kenv.submitResp) = none)
    (hasub : aenv.submitHttpOk = true)
    (haid : jsTruthy (extractTaskId aenv.submitResp) = none) :
    (generateVideoWithKling kenv imageUrl prompt d a hooks).1 =
      .error ("Kling AI video generation failed: " ++
        ("Kling AI API error: No task_id returned. Response: " ++ renderTaskResponse kenv.submitResp)) ∧
    (generateVideoWithKling kenv imageUrl prompt d a hooks).2 = [] ∧
    (addAudioToVideo aenv t prompt hooks).1 =
      .error ("Kling Sound API error: No task_id returned. Response: " ++
        renderTaskResponse aenv.submitResp) ∧
    (addAudioToVideo aenv t prompt hooks).2 = [] := by
  have hinner : generateVideoWithKlingInner kenv imageUrl prompt d a hooks =
      (.error ("Kling AI API error: No task_id returned. Response: " ++ renderTaskResponse kenv.submitResp), []) := by
    unfold generateVideoWithKlingInner
    rw [if_neg (not_not_intro ⟨hne, by rcases hhttp with h | h <;> simp [h]⟩)]
    rw [if_neg (by simp [hkey])]
    rw [if_neg (by simp [h9j]; omega)]
    rw [if_neg (by simp [hsub])]
    rw [hid]
  have haudio : addAudioToVideo aenv t prompt hooks =
      (.error ("Kling Sound API error: No task_id returned. Response: " ++ renderTaskResponse aenv.submitResp), []) := by
    unfold addAudioToVideo
    rw [if_neg (by simp [hasub])]
    rw [haid]
  refine ⟨?_, ?_, ?_, ?_⟩
  · unfold generateVideoWithKling
    rw [hinner]
  · unfold generateVideoWithKling
    rw [hinner]
  · rw [haudio]
  · rw [haudio]

/-- Witness for C9's amended theorem: concrete Kling environments whose 200
submission responses carry no task id fail with the reported error and do
no polling. -/
theorem c9_no_task_id_rejected_witness :
    exKlingNoIdEnv.submitHttpOk = true ∧
    jsTruthy (extractTaskId exKlingNoIdEnv.submitResp) = none ∧
    exAudioNoIdEnv.submitHttpOk = true ∧
    jsTruthy (extractTaskId exAudioNoIdEnv.submitResp) = none ∧
    ((generateVideoWithKling exKlingNoIdEnv ("https://cdn.example.com/frame.png") ("p") 10 false false).1 =
        .error ("Kling AI video generation failed: " ++
          ("Kling AI API error: No task_id returned. Response: " ++ renderTaskResponse exKlingNoIdEnv.submitResp)) ∧
      (generateVideoWithKling exKlingNoIdEnv ("https://cdn.example.com/frame.png") ("p") 10 false false).2 = [] ∧
      (addAudioToVideo exAudioNoIdEnv ("vid-task-1") ("p") false).1 =
        .error ("Kling Sound API error: No task_id returned. Response: " ++
          renderTaskResponse exAudioNoIdEnv.submitResp) ∧
      (addAudioToVideo exAudioNoIdEnv ("vid-task-1") ("p") false).2 = []) :=
  ⟨rfl, rfl, rfl, rfl,
    c9_no_task_id_rejected exKlingNoIdEnv exAudioNoIdEnv
      ("https://cdn.example.com/frame.png") ("p") ("vid-task-1") 10 false false
      (by decide) (Or.inr (by decide)) (by decide) (by decide) rfl rfl rfl rfl rfl⟩

/-- C10: for a video project whose scene reference is a video (no scene
image), the scene-image path resolves to the empty string, the video path
goes to prompt enhancement only, and the image-composition stage is
nevertheless invoked — with the empty string as its scene argument. -/
theorem c10_scene_video_not_given_to_composer (env : PipelineEnv) (p : Project) (v : String)
    (hp : env.getProject = some p) (hct : p.contentType = ContentType.video)
    (hsi : p.sceneImageUrl = none) (hsv : p.sceneVideoUrl = some v) (hv : v ≠ "") :
    sceneImagePathOf p = "" ∧
    scenePathOf p = extractRelativePath v ∧
    extractRelativePath v ≠ "" ∧
    (∃ rest, (processProject env).attempts =
      .enhancement (productPathOf p) (extractRelativePath v) true ::
      .imageGen (productPathOf p) ("") :: rest) := by
  have h1 : sceneImagePathOf p = "" := by
    unfold sceneImagePathOf
    rw [hsi]
    rfl
  have hsvp : sceneVideoPathOf p = extractRelativePath v := by
    unfold sceneVideoPathOf
    rw [hsv]
    simp [jsOrStr, hv]
  have hne := extractRelativePath_ne_empty v hv
  have hsceneIs : sceneIsVideo p := ⟨hct, by rw [hsvp]; exact hne⟩
  have h2 : scenePathOf p = extractRelativePath v := by
    unfold scenePathOf
    rw [if_pos hsceneIs, hsvp]
  refine ⟨h1, h2, hne, ?_⟩
  obtain ⟨rest, hrest⟩ := processProject_attempts_shape env p hp
  refine ⟨rest, ?_⟩
  rw [hrest]
  simp [attemptsHeaderOf, hct, h1, h2]

/-- Witness for C10: a concrete video-scene run sends the scene video only
to prompt enhancement and calls the image composer with the empty string. -/
theorem c10_scene_video_not_given_to_composer_witness :
    exPipelineSceneVideoEnv.getProject = some exSceneVideoProject ∧
    exSceneVideoProject.contentType = ContentType.video ∧
    exSceneVideoProject.sceneImageUrl = none ∧
    exSceneVideoProject.sceneVideoUrl = some ("https://app.example.com/public-objects/u1/scene.mp4") ∧
    (sceneImagePathOf exSceneVideoProject = "" ∧
      scenePathOf exSceneVideoProject =
        extractRelativePath ("https://app.example.com/public-objects/u1/scene.mp4") ∧
      extractRelativePath ("https://app.example.com/public-objects/u1/scene.mp4") ≠ "" ∧
      (∃ rest, (processProject exPipelineSceneVideoEnv).attempts =
        .enhancement (productPathOf exSceneVideoProject)
          (extractRelativePath ("https://app.example.com/public-objects/u1/scene.mp4")) true ::
        .imageGen (productPathOf exSceneVideoProject) ("") :: rest)) :=
  ⟨rfl, rfl, rfl, rfl,
    c10_scene_video_not_given_to_composer exPipelineSceneVideoEnv exSceneVideoProject
      ("https://app.example.com/public-objects/u1/scene.mp4") rfl rfl rfl rfl (by decide)⟩

end CgiGen
